import Mathlib

/-!
Verification development for the RS-Agent conversational backend.

The Python sources under `backend/` are shallowly embedded: JSON-like Python
values become the inductive type `PyVal`, dictionary / string primitives are
modelled executably, fallible operations (attribute errors, type errors,
KB-subprocess failures) return `Except PyErr`, and external collaborators
(LLM chat completions, the knowledge-retrieval subprocess, the SQLite message
store) are parameters of the pipeline functions.
-/

/-- Python exception, carried as its message text. -/
abbrev PyErr := String

/-- JSON-like Python value: the dynamic values flowing through the draft
structures, LLM results and pipeline payloads. -/
inductive PyVal where
  | null : PyVal
  | str (s : String) : PyVal
  | int (n : Int) : PyVal
  | bool (b : Bool) : PyVal
  | list (xs : List PyVal) : PyVal
  | obj (fields : List (String × PyVal)) : PyVal
deriving Repr

namespace PyVal

/-- Python truthiness (`bool(v)`): `None`, `""`, `0`, `False`, `[]`, `{}` are falsy. -/
def truthy : PyVal → Bool
  | .null => false
  | .str s => s ≠ ""
  | .int n => n ≠ 0
  | .bool b => b
  | .list xs => !xs.isEmpty
  | .obj fs => !fs.isEmpty

/-- First binding for a key in an object's field list (Python dicts are
key-unique; lists with duplicate keys read their first binding). -/
def lookupKey (fs : List (String × PyVal)) (k : String) : Option PyVal :=
  match fs with
  | [] => none
  | (k0, v) :: rest => if k0 = k then some v else lookupKey rest k

/-- `d.get(k)` on a value that must be a dict: `AttributeError` otherwise. -/
def getRaw (v : PyVal) (k : String) : Except PyErr (Option PyVal) :=
  match v with
  | .obj fs => .ok (lookupKey fs k)
  | _ => .error "AttributeError: object has no attribute get"

/-- `(v or {}).get(k)`: falsy receivers act as the empty dict, truthy
non-dicts raise `AttributeError`. -/
def getAttr (v : PyVal) (k : String) : Except PyErr (Option PyVal) :=
  if truthy v then getRaw v k else .ok none

/-- `v.get(k) or default` convenience: missing / falsy results fall back. -/
def getOr (v : PyVal) (k : String) (dflt : PyVal) : Except PyErr PyVal := do
  let r ← getAttr v k
  match r with
  | some x => pure (if truthy x then x else dflt)
  | none => pure dflt

/-- Replace the first binding of `k` (or append one): `d[k] = v`. -/
def setKey (fs : List (String × PyVal)) (k : String) (v : PyVal) :
    List (String × PyVal) :=
  match fs with
  | [] => [(k, v)]
  | (k0, v0) :: rest =>
      if k0 = k then (k0, v) :: rest else (k0, v0) :: setKey rest k v

/-- `d[k] = v` on a dict value; `TypeError` on non-dicts. -/
def setItem (d : PyVal) (k : String) (v : PyVal) : Except PyErr PyVal :=
  match d with
  | .obj fs => .ok (.obj (setKey fs k v))
  | _ => .error "TypeError: object does not support item assignment"

/-- `d.setdefault(k, dflt)`: the stored (or newly inserted) value together
with the updated dict. -/
def setdefault (d : PyVal) (k : String) (dflt : PyVal) :
    Except PyErr (PyVal × PyVal) :=
  match d with
  | .obj fs =>
      match lookupKey fs k with
      | some v => .ok (v, .obj fs)
      | none => .ok (dflt, .obj (fs ++ [(k, dflt)]))
  | _ => .error "AttributeError: object has no attribute setdefault"

/-- `for x in v`: lists yield elements, strings their characters, dicts their
keys; other truthy values raise `TypeError` (falsy ones are only iterated
after an `or []` coercion, giving the empty list). -/
def iterate : PyVal → Except PyErr (List PyVal)
  | .list xs => .ok xs
  | .str s => .ok (s.data.map fun c => .str (String.mk [c]))
  | .obj fs => .ok (fs.map fun kv => .str kv.1)
  | .null => .error "TypeError: object is not iterable"
  | .int _ => .error "TypeError: object is not iterable"
  | .bool _ => .error "TypeError: object is not iterable"

end PyVal

/-! ### Python string primitives, modelled on `List Char` -/

/-- One segment test of `needle in hay` for strings: substring containment. -/
def subList (needle : List Char) : List Char → Bool
  | [] => needle.isEmpty
  | c :: rest => needle.isPrefixOf (c :: rest) || subList needle rest

/-- Python `needle in hay` for strings. -/
def strIn (needle hay : String) : Bool :=
  subList needle.data hay.data

/-- `any(k in s for k in ks)`. -/
def strInAny (ks : List String) (s : String) : Bool :=
  ks.any fun k => strIn k s

/-- Python whitespace stripping on character lists. -/
def stripList (l : List Char) : List Char :=
  ((l.dropWhile Char.isWhitespace).reverse.dropWhile Char.isWhitespace).reverse

/-- Python `s.strip()`. -/
def pyStrip (s : String) : String :=
  String.mk (stripList s.data)

/-- Python `s.replace(pat, "")`: left-to-right, non-overlapping removal of a
non-empty pattern.  `skip > 0` means that many further characters belong to
the occurrence currently being removed (structural recursion on the list; a
match at the head consumes one character and sets the counter to the rest of
the pattern). -/
def dropPatternAux (pat : List Char) : Nat → List Char → List Char
  | _, [] => []
  | 0, c :: rest =>
      if pat ≠ [] ∧ pat.isPrefixOf (c :: rest) then
        dropPatternAux pat (pat.length - 1) rest
      else
        c :: dropPatternAux pat 0 rest
  | Nat.succ k, _ :: rest => dropPatternAux pat k rest

def dropPattern (pat l : List Char) : List Char :=
  dropPatternAux pat 0 l

/-- Python `s.replace(pat, "")` on strings. -/
def pyReplaceDrop (s pat : String) : String :=
  String.mk (dropPattern pat.data s.data)

/-- Python `s.splitlines()` (covering `\n`, `\r\n` and `\r`; no trailing
empty line). -/
def splitlinesAux (acc : List Char) : List Char → List (List Char)
  | [] => if acc.isEmpty then [] else [acc.reverse]
  | '\r' :: '\n' :: rest => acc.reverse :: splitlinesAux [] rest
  | '\n' :: rest => acc.reverse :: splitlinesAux [] rest
  | '\r' :: rest => acc.reverse :: splitlinesAux [] rest
  | c :: rest => splitlinesAux (c :: acc) rest

/-- Python `s.splitlines()` on strings. -/
def pySplitlines (s : String) : List String :=
  (splitlinesAux [] s.data).map String.mk

/-- Python `sep.join(lines)`. -/
def pyJoin (sep : String) (lines : List String) : String :=
  String.intercalate sep lines

/-- Python `s[:n]` (by code points, like Python). -/
def pyTake (s : String) (n : Nat) : String :=
  String.mk (s.data.take n)

/-- Python `s.split()`: split on whitespace runs, discarding empties. -/
def pySplitWs (s : String) : List String :=
  ((s.data.splitOnP Char.isWhitespace).map String.mk).filter (· ≠ "")

/-- Python `s.split(sep)` for the single-character separators the sources
use (`"."` and `"\n"`). -/
def pySplitChar (sep : Char) (s : String) : List String :=
  (s.data.splitOnP (· = sep)).map String.mk

/-- Python `s.lower()` (ASCII case folding suffices for the literals the
sources compare against). -/
def pyLower (s : String) : String :=
  String.mk (s.data.map Char.toLower)

/-- Python `repr(v)` for our value fragment (string escaping inside nested
reprs is immaterial to the properties proved here). -/
def pyRepr : PyVal → String
  | .null => "None"
  | .bool b => if b then "True" else "False"
  | .int n => toString n
  | .str s => "\x27" ++ s ++ "\x27"
  | .list xs => "[" ++ pyJoin ", " (xs.attach.map fun x => pyRepr x.1) ++ "]"
  | .obj fs =>
      "\x7b" ++
        pyJoin ", "
          (fs.attach.map fun kv => "\x27" ++ kv.1.1 ++ "\x27: " ++ pyRepr kv.1.2) ++
        "\x7d"
termination_by v => sizeOf v
decreasing_by
  all_goals simp_wf
  · have hx := List.sizeOf_lt_of_mem x.2
    omega
  · have hkv := List.sizeOf_lt_of_mem kv.2
    have hsnd : sizeOf kv.1.2 < sizeOf kv.1 := by
      obtain ⟨⟨a, b⟩, _⟩ := kv
      simp
    omega

/-- Python `str(v)`: identity on strings, `repr`-style elsewhere. -/
def pyStr (v : PyVal) : String :=
  match v with
  | .str s => s
  | v => pyRepr v

/-! ### `backend/utils/text.py` -/

/-- `sanitize_draft_text`: `None`, blank, `"undefined"` and `"null"` become
the placeholder. -/
def sanitize_draft_text (value : PyVal) (placeholder : String) : String :=
  match value with
  | .null => placeholder
  | v =>
      let s := pyStrip (pyStr v)
      if s = "" || pyLower s = "undefined" || pyLower s = "null" then placeholder
      else s

/-! ### `backend/services/defender_service.py` -/

def PLACEHOLDER_TOKEN : String := "（待"

def NONE_NOTIFICATION_VALUES : List String := ["无", "（无）", "无。"]

def REQUIRED_PATHS : List (String × String) := [
  ("business_requirement.demand_source", "请补充需求来源（用户原始表述）。"),
  ("business_requirement.product_statement", "请补充产品化表述（背景、目标、范围、约束）。"),
  ("system_current.business_rules", "请补充当前业务规则与逻辑。"),
  ("system_current.frontend_current.description", "请补充前端现状（页面、交互、数据展示）。"),
  ("system_current.backend_current.description", "请补充后端现状（模块、功能、流程）。"),
  ("system_current.backend_current.flow_mermaid", "请补充后端现状的系统级流程图（Mermaid）。"),
  ("system_current.notification_current", "请补充通知现状（类型、触发条件、模板与渠道）。"),
  ("system_current.notification_current.table_markdown", "请补充通知现状表格（通知场景/通知内容）。"),
  ("system_changes.change_overview", "请补充改动总览（模块、优先级、依赖）。"),
  ("system_changes.frontend_changes.description", "请补充前端改动说明。"),
  ("system_changes.backend_changes.overview", "请补充后端改动概述（系统级）。"),
  ("system_changes.backend_changes.flow_mermaid", "请补充后端改动的系统级流程图（Mermaid）。"),
  ("system_changes.notification_changes.description", "请补充通知改动说明。"),
  ("system_changes.notification_changes.table_markdown", "请补充通知改动表格（通知场景/通知内容）。")]

structure MissingField where
  field_path : String
  reason : String
  suggested_questions_to_user : List String
  suggested_query_to_kb : Option String
deriving Repr, DecidableEq

structure DefenderResult where
  is_complete : Bool
  questions : List String
  missing_fields : List MissingField
deriving Repr, DecidableEq

/-- `_get_path` body: `obj = (obj or {}).get(part)`, returning `None` as soon
as a lookup misses or hits a stored `None`. -/
def getPathAux : PyVal → List String → Except PyErr (Option PyVal)
  | obj, [] => .ok (some obj)
  | obj, part :: rest => do
      let r ← PyVal.getAttr obj part
      match r with
      | none => .ok none
      | some .null => .ok none
      | some v => getPathAux v rest

/-- `_get_path(draft, path)`: dotted-path lookup. -/
def getPath (draft : PyVal) (path : String) : Except PyErr (Option PyVal) :=
  getPathAux draft (pySplitChar '.' path)

/-- `_str_value`: strings pass through, dicts contribute
`(d.get("description") or "") or ""`, anything else the empty string. -/
def strValue (val : PyVal) : PyVal :=
  match val with
  | .str s => .str s
  | .obj fs =>
      match PyVal.lookupKey fs "description" with
      | some d => if d.truthy then d else .str ""
      | none => .str ""
  | _ => .str ""

/-- Python `needle in hay` where `hay` is a dynamic value: substring test on
strings, key test on dicts, element test on lists, `TypeError` otherwise. -/
def pyInStr (needle : String) (hay : PyVal) : Except PyErr Bool :=
  match hay with
  | .str s => .ok (strIn needle s)
  | .obj fs => .ok (fs.any fun kv => kv.1 = needle)
  | .list xs => .ok (xs.any fun x => match x with | .str s => s = needle | _ => false)
  | _ => .error "TypeError: argument is not iterable"

/-- Builds one `MissingField` record the way both `check_draft` loops do. -/
def mkMissing (path question reason : String) : MissingField :=
  { field_path := path
    reason := reason
    suggested_questions_to_user := [question]
    suggested_query_to_kb :=
      some (((pySplitChar '.' path).headD "") ++ " " ++ pyTake question 20) }

/-- One iteration of the required-path loop of `check_draft`. -/
def requiredEntry (draft : PyVal) (pq : String × String) :
    Except PyErr (List MissingField) := do
  let val ← getPath draft pq.1
  match val with
  | none => pure [mkMissing pq.1 pq.2 "required_but_empty"]
  | some v =>
      let s := match v with | .str _ => v | _ => strValue v
      let b ← pyInStr PLACEHOLDER_TOKEN s
      pure (if b then [mkMissing pq.1 pq.2 "placeholder"] else [])

/-- The required-path loop of `check_draft`, in list order. -/
def requiredPass (draft : PyVal) : List (String × String) →
    Except PyErr (List MissingField)
  | [] => .ok []
  | pq :: rest => do
      let e ← requiredEntry draft pq
      let r ← requiredPass draft rest
      pure (e ++ r)

/-- One non-empty Mermaid-field check: flag `invalid_format` unless the text
holds a fenced diagram block. -/
def mermaidEntry (v : Option PyVal) (path question : String) : List MissingField :=
  match v with
  | some (.str s) =>
      if pyStrip s != "" && !(strIn "```mermaid" s) then
        [mkMissing path question "invalid_format"]
      else []
  | _ => []

/-- One non-empty notification-table check: accept the recognized none
literals, otherwise require the two-column header (as the source tests it:
needle kept verbatim, haystack space-stripped). -/
def tableEntry (v : Option PyVal) (path question : String) : List MissingField :=
  match v with
  | some (.str s) =>
      if pyStrip s != "" &&
          !(NONE_NOTIFICATION_VALUES.contains (pyStrip s)) &&
          !(strIn "| 通知场景 | 通知内容 |" (pyReplaceDrop s " ")) then
        [mkMissing path question "invalid_format"]
      else []
  | _ => []

/-- The four structural checks (two Mermaid fences, two notification table
headers), in source order. -/
def formatChecks (draft : PyVal) : Except PyErr (List MissingField) := do
  let scMermaid ← getPath draft "system_current.backend_current.flow_mermaid"
  let chMermaid ← getPath draft "system_changes.backend_changes.flow_mermaid"
  let ntTable ← getPath draft "system_current.notification_current.table_markdown"
  let ntcTable ← getPath draft "system_changes.notification_changes.table_markdown"
  pure (mermaidEntry scMermaid "system_current.backend_current.flow_mermaid"
      "后端现状流程图需要以 ```mermaid 代码块形式给出（从行首开始）。请补充。" ++
    mermaidEntry chMermaid "system_changes.backend_changes.flow_mermaid"
      "后端改动流程图需要以 ```mermaid 代码块形式给出（从行首开始）。请补充。" ++
    tableEntry ntTable "system_current.notification_current.table_markdown"
      "通知现状表格表头必须是：| 通知场景 | 通知内容 |。若知识库无通知信息可填「无」。" ++
    tableEntry ntcTable "system_changes.notification_changes.table_markdown"
      "通知改动表格表头必须是：| 通知场景 | 通知内容 |。若无通知改动可填「无」。")

/-- The loop-prevention test of `check_draft`: the change overview (or legacy
`business_changes`) holds at least 20 characters once the placeholder token
is removed. -/
def loopPreventCond (draft : PyVal) : Except PyErr Bool := do
  let a ← getPath draft "system_changes.change_overview"
  let co ←
    match a with
    | some v =>
        if v.truthy then pure v
        else do
          let b ← getPath draft "system_changes.business_changes"
          pure (b.getD .null)
    | none => do
        let b ← getPath draft "system_changes.business_changes"
        pure (b.getD .null)
  match strValue co with
  | .str s =>
      pure (s != "" &&
        decide ((pyStrip (pyReplaceDrop s PLACEHOLDER_TOKEN)).data.length ≥ 20))
  | v =>
      if v.truthy then .error "AttributeError: object has no attribute replace"
      else pure false

def CATCH_ALL_QUESTION : String :=
  "请补充具体的改动总览，以及前端/后端/通知各自需要做哪些调整。"

/-- Final assembly of a `DefenderResult` from the missing list (including the
catch-all question when no questions were collected). -/
def assembleResult (missing : List MissingField) : DefenderResult :=
  let questions := missing.flatMap (·.suggested_questions_to_user)
  { is_complete := missing.isEmpty
    questions := if questions.isEmpty then [CATCH_ALL_QUESTION] else questions
    missing_fields := missing }

/-- Tail of `check_draft` once the fallible lookups are done: apply the
loop-prevention filter (with its short-circuit to a question-free complete
result) and assemble. -/
def checkAssemble (missing : List MissingField) (cond : Bool) : DefenderResult :=
  if cond then
    let filtered := missing.filter fun m =>
      !(strIn "change_overview" m.field_path) && !(strIn "business_changes" m.field_path)
    if filtered.isEmpty then
      { is_complete := true, questions := [], missing_fields := [] }
    else
      assembleResult filtered
  else
    assembleResult missing

/-- `check_draft`: schema completeness check over a draft. -/
def check_draft (draft : PyVal) : Except PyErr DefenderResult := do
  let missing1 ← requiredPass draft REQUIRED_PATHS
  let fmt ← formatChecks draft
  let cond ← loopPreventCond draft
  pure (checkAssemble (missing1 ++ fmt) cond)

/-! ### helper dictionary idioms shared by several services -/

/-- Plain `v.get(k)` with Python's `None` for a missing key
(`AttributeError` when `v` is not a dict). -/
def pyGetD (v : PyVal) (k : String) : Except PyErr PyVal :=
  (PyVal.getRaw v k).map (fun o => o.getD .null)

/-- Python `x or dflt`. -/
def pyOrElse (v dflt : PyVal) : PyVal :=
  if v.truthy then v else dflt

/-- `for x in v` over an `... or []` value: a falsy collection is simply not
iterated, a truthy one yields its elements. -/
def pyIterOrEmpty (v : PyVal) : Except PyErr (List PyVal) :=
  if v.truthy then PyVal.iterate v else pure []

/-- `d.get(k1) or d.get(k2)`: the second lookup is the fallback for a
falsy first result. -/
def pyGetOr2 (d : PyVal) (k1 k2 : String) : Except PyErr PyVal := do
  let a ← pyGetD d k1
  if a.truthy then pure a else pyGetD d k2

/-! ### `backend/services/confirmer_service.py` -/

def DEFAULT_PROMPT : String :=
  "请确认以上内容是否无误，确认后将继续做完整性检查并生成最终文档。"

/-- `ConfirmerParseResult` (status and the optional dynamic fields keep the
dynamic value type; `None` is `PyVal.null`). -/
structure ConfirmerParseResult where
  status : PyVal
  user_message : String
  suggested_draft_updates : PyVal
  clarification_question : PyVal
  redo_scope : PyVal
deriving Repr

def FULL_REDO_KEYWORDS : List String := ["整体重做", "全部重做", "重新生成", "从头再来"]

def PARTIAL_REDO_KEYWORDS : List String :=
  ["只改业务需求", "只改系统现状", "只改系统改动点", "只改业务", "只改现状", "只改改动点"]

def CONFIRM_KEYWORDS : List String :=
  ["确认", "没问题", "OK", "ok", "好", "可以", "无异议", "通过"]

def NEGATIVE_CHARS : List String := ["不", "有问", "错", "改"]

def CLARIFICATION_FALLBACK_QUESTION : String :=
  "请具体说明需要修改的部分或您的建议，以便更新草稿。"

/-- The deterministic keyword fallback of `parse_feedback` (the code run when
the LLM call raises): ordered keyword families over the stripped feedback. -/
def parse_feedback_fallback (draft_output : PyVal) (user_message : String) :
    Except PyErr ConfirmerParseResult :=
  let msg := pyStrip user_message
  if strInAny FULL_REDO_KEYWORDS msg then
    .ok { status := .str "request_redo_full", user_message := user_message,
          suggested_draft_updates := .null, clarification_question := .null,
          redo_scope := .str "full" }
  else if strInAny PARTIAL_REDO_KEYWORDS msg then
    let scope :=
      if strIn "业务" msg then "business_requirement"
      else if strIn "现状" msg then "system_current"
      else "system_changes"
    .ok { status := .str "request_redo_partial", user_message := user_message,
          suggested_draft_updates := .null, clarification_question := .null,
          redo_scope := .str scope }
  else if strIn "重做" msg && (strIn "一块" msg || strIn "部分" msg || strIn "一段" msg) then
    .ok { status := .str "request_redo_partial", user_message := user_message,
          suggested_draft_updates := .null, clarification_question := .null,
          redo_scope := .str "system_changes" }
  else if msg = "" || strInAny CONFIRM_KEYWORDS msg then
    .ok { status := .str "confirmed", user_message := user_message,
          suggested_draft_updates := .null, clarification_question := .null,
          redo_scope := .null }
  else if msg.data.length ≤ 4 && strInAny NEGATIVE_CHARS msg then
    .ok { status := .str "needs_clarification", user_message := user_message,
          suggested_draft_updates := .null,
          clarification_question := .str CLARIFICATION_FALLBACK_QUESTION,
          redo_scope := .null }
  else do
    let br0 ← pyGetD draft_output "business_requirement"
    let br := pyOrElse br0 (.obj [])
    let origPs ← pyGetD br "product_statement"
    let orig_ps := pyOrElse origPs (.str "")
    let new_ps ←
      match orig_ps with
      | .str s => pure (if s ≠ "" then s ++ "\n\n【用户补充】" ++ msg else msg)
      | v =>
          if v.truthy then
            .error "TypeError: can only concatenate str"
          else pure msg
    pure { status := .str "revised", user_message := user_message,
           suggested_draft_updates :=
             .obj [("business_requirement", .obj [("product_statement", .str new_ps)])],
           clarification_question := .null,
           redo_scope := .null }

/-- `parse_feedback`: LLM-first (`llm_confirmer_parse` outcome passed as an
oracle; `none` models any raised error), keyword fallback otherwise. -/
def parse_feedback (llmConfirmerParse : PyVal → String → Option PyVal)
    (draft_output : PyVal) (user_message : String) :
    Except PyErr ConfirmerParseResult :=
  match llmConfirmerParse draft_output user_message with
  | some parsed =>
      let attempt : Except PyErr ConfirmerParseResult := do
        let status0 ← pyGetD parsed "status"
        let status := pyOrElse status0 (.str "confirmed")
        let suggested ← pyGetD parsed "suggested_draft_updates"
        let cq ← pyGetD parsed "clarification_question"
        let rs ← pyGetD parsed "redo_scope"
        pure { status := status, user_message := user_message,
               suggested_draft_updates := suggested,
               clarification_question := cq, redo_scope := rs }
      match attempt with
      | .ok r => .ok r
      | .error _ => parse_feedback_fallback draft_output user_message
  | none => parse_feedback_fallback draft_output user_message

/-! ### `backend/services/editor_service.py` -/

/-- `- {r}` line of the risks section: strings are sanitized, other values
rendered directly. -/
def riskLine (r : PyVal) : String :=
  match r with
  | .str s => "- " ++ sanitize_draft_text (.str s) "（待补充）"
  | v => "- " ++ pyStr v

/-- `render_final(draft)`: deterministic rendering of a draft into the final
markdown document.  Fallible value accesses are sequenced first (they raise
exactly where the Python attribute/iteration errors would), then the output
text is assembled as in the source. -/
def render_final (draft : PyVal) : Except PyErr String := do
  let br0 ← pyGetD draft "business_requirement"
  let br := pyOrElse br0 (.obj [])
  let sc0 ← pyGetD draft "system_current"
  let sc := pyOrElse sc0 (.obj [])
  let ch0 ← pyGetD draft "system_changes"
  let ch := pyOrElse ch0 (.obj [])

  let ds ← pyGetD br "demand_source"
  let demand_source := sanitize_draft_text ds "（待补充）"
  let ps ← pyGetD br "product_statement"
  let product_statement := sanitize_draft_text ps "（待补充）"
  let cl0 ← pyGetD br "clarification_log"
  let clarification_log := pyOrElse cl0 (.obj [])
  let clItems0 ← pyGetD clarification_log "items"
  let cl_items := pyOrElse clItems0 (.list [])

  let brules ← pyGetD sc "business_rules"
  let business_rules := sanitize_draft_text brules "（待补充）"
  let fec0 ← pyGetD sc "frontend_current"
  let fed ← pyGetD (pyOrElse fec0 (.obj [])) "description"
  let fe_desc := sanitize_draft_text fed "（待补充前端现状）"
  let be0 ← pyGetD sc "backend_current"
  let be_obj := pyOrElse be0 (.obj [])
  let be_desc :=
    match be_obj with
    | .obj fs =>
        sanitize_draft_text ((PyVal.lookupKey fs "description").getD .null)
          "（待补充后端现状）"
    | v => sanitize_draft_text (.str (pyStr v)) "（待补充后端现状）"
  let be_steps :=
    match be_obj with
    | .obj fs => sanitize_draft_text ((PyVal.lookupKey fs "steps_text").getD .null) ""
    | _ => ""
  let be_flow :=
    match be_obj with
    | .obj fs => sanitize_draft_text ((PyVal.lookupKey fs "flow_mermaid").getD .null) ""
    | _ => ""
  let nt_raw ← pyGetD sc "notification_current"
  let nt_desc ←
    match nt_raw with
    | .str s => pure (sanitize_draft_text (.str s) "（待补充通知/消息现状）")
    | v => do
        let d ← PyVal.getAttr v "description"
        pure (sanitize_draft_text (d.getD .null) "（待补充通知/消息现状）")
  let nt_table :=
    match nt_raw with
    | .obj fs =>
        sanitize_draft_text ((PyVal.lookupKey fs "table_markdown").getD .null) ""
    | _ => ""

  let co ← pyGetOr2 ch "change_overview" "business_changes"
  let change_overview := sanitize_draft_text co "（待补充改动总览）"
  let fch0 ← pyGetD ch "frontend_changes"
  let fchd ← pyGetD (pyOrElse fch0 (.obj [])) "description"
  let fe_changes := sanitize_draft_text fchd "（待补充前端改动点）"
  let beCh ← pyGetD ch "backend_changes"
  let beChObj := pyOrElse beCh (.obj [])
  let be_ch_overview :=
    match beChObj with
    | .obj fs => sanitize_draft_text ((PyVal.lookupKey fs "overview").getD .null) ""
    | _ => ""
  let be_ch_steps :=
    match beChObj with
    | .obj fs => sanitize_draft_text ((PyVal.lookupKey fs "steps_text").getD .null) ""
    | _ => ""
  let be_ch_flow :=
    match beChObj with
    | .obj fs => sanitize_draft_text ((PyVal.lookupKey fs "flow_mermaid").getD .null) ""
    | _ => ""
  let be_changes_legacy :=
    match beChObj with
    | .obj fs =>
        sanitize_draft_text
          (pyOrElse ((PyVal.lookupKey fs "description_display").getD .null)
            ((PyVal.lookupKey fs "description").getD .null))
          "（待补充后端改动点）"
    | v => sanitize_draft_text (.str (pyStr v)) "（待补充后端改动点）"
  let nt_ch_raw ← pyGetD ch "notification_changes"
  let nt_changes_desc ←
    match nt_ch_raw with
    | .str s => pure (sanitize_draft_text (.str s) "（待补充通知/消息改动点）")
    | v => do
        let d ← PyVal.getAttr v "description"
        pure (sanitize_draft_text (d.getD .null) "（待补充通知/消息改动点）")
  let nt_changes_table :=
    match nt_ch_raw with
    | .obj fs =>
        sanitize_draft_text ((PyVal.lookupKey fs "table_markdown").getD .null) ""
    | _ => ""
  let risks0 ← pyGetD ch "risks"
  let risksVal := pyOrElse risks0 (.list [])
  let riskItems ← pyIterOrEmpty risksVal
  let imgs0 ← pyGetD sc "image_urls"
  let imageUrlsVal := pyOrElse imgs0 (.list [])
  let imageUrls ← pyIterOrEmpty imageUrlsVal
  let clItemsList ← pyIterOrEmpty cl_items
  let clEntries ← clItemsList.mapM fun item => do
    let q ← pyGetD item "question"
    let a ← pyGetD item "answer"
    let src ← pyGetD item "source"
    pure (sanitize_draft_text q "", sanitize_draft_text a "", sanitize_draft_text src "")

  let md := "# 需求分析文档（正式版）\n\n## 一、业务需求\n\n- 需求来源：" ++
    demand_source ++ "\n- 产品化表述：" ++ product_statement ++
    "\n\n---\n\n## 二、系统现状\n\n### 业务规则与逻辑\n\n" ++ business_rules ++ "\n"
  let md := md ++ "\n\n### 前端现状\n\n- " ++ fe_desc ++
    "\n\n### 后端现状\n\n- " ++ be_desc ++ "\n"
  let md :=
    if pyStrip be_steps ≠ "" then
      md ++ "\n\n#### 后端现状步骤（系统级别）\n\n" ++ pyStrip be_steps ++ "\n"
    else md
  let md :=
    if pyStrip be_flow ≠ "" then
      md ++ "\n\n#### 后端现状流程图（系统级别）\n\n" ++ pyStrip be_flow ++ "\n"
    else md
  let md := md ++ "\n\n### 通知 / 消息现状\n\n- " ++ nt_desc ++ "\n"
  let md :=
    if pyStrip nt_table ≠ "" then
      md ++ "\n\n#### 通知现状表格\n\n" ++ pyStrip nt_table ++ "\n"
    else md
  let md :=
    if !imageUrls.isEmpty then
      md ++ "\n\n### 附图（来自知识库）\n" ++
        pyJoin "\n" (imageUrls.map fun u => "![附图](" ++ pyStr u ++ ")")
    else md
  let md := md ++ "\n\n---\n\n## 三、系统改动点\n\n### 改动总览\n\n" ++
    change_overview ++ "\n\n### 前端改动点\n\n" ++ fe_changes ++
    "\n\n### 后端改动点\n\n"
  let md :=
    if pyStrip be_ch_overview ≠ "" || pyStrip be_ch_steps ≠ "" || pyStrip be_ch_flow ≠ "" then
      let md := if pyStrip be_ch_overview ≠ "" then md ++ pyStrip be_ch_overview ++ "\n\n" else md
      let md := if pyStrip be_ch_steps ≠ "" then
        md ++ "#### 后端改动步骤\n\n" ++ pyStrip be_ch_steps ++ "\n\n" else md
      if pyStrip be_ch_flow ≠ "" then
        md ++ "#### 后端改动流程图\n\n" ++ pyStrip be_ch_flow ++ "\n"
      else md
    else md ++ be_changes_legacy ++ "\n"
  let md := md ++ "\n\n### 通知改动点\n\n" ++ nt_changes_desc ++ "\n"
  let md :=
    if pyStrip nt_changes_table ≠ "" then
      md ++ "\n\n#### 通知改动表格\n\n" ++ pyStrip nt_changes_table ++ "\n"
    else md
  let md :=
    if !imageUrls.isEmpty then
      md ++ "\n\n### 附图（来自知识库）\n" ++
        pyJoin "\n" (imageUrls.map fun u => "![附图](" ++ pyStr u ++ ")")
    else md
  let md :=
    if !riskItems.isEmpty then
      md ++ "\n\n### 风险与回滚要点\n\n" ++ pyJoin "\n" (riskItems.map riskLine)
    else md
  let md := md ++ "\n"
  let md :=
    if !clEntries.isEmpty then
      let headLines := ["", "<details open>", "<summary>待澄清项记录</summary>", ""]
      let entryLines := clEntries.enum.flatMap fun e =>
        ["### 第 " ++ toString (e.1 + 1) ++ " 轮（来源：" ++ e.2.2.2 ++ "）",
         "- **问题**：" ++ e.2.1,
         "- **用户答案**：" ++ e.2.2.1,
         ""]
      md ++ pyJoin "\n" (headLines ++ entryLines ++ ["</details>"])
    else md
  pure (pyStrip md)

/-! ### `backend/services/trading_kb_service.py` -/

def KB_IMAGE_MARKER : String := "[图片路径]"

/-- The stdout-splitting loop of `query_kb`: before the literal marker line,
lines go to the markdown answer; once the marker has been seen, non-blank
stripped lines are collected as exported image paths (further marker lines
are skipped by the first test of the loop body). -/
def kbStdoutLoop (inBlock : Bool) : List String → List String × List String
  | [] => ([], [])
  | line :: rest =>
      let stripped := pyStrip line
      if stripped = KB_IMAGE_MARKER then kbStdoutLoop true rest
      else if inBlock then
        if stripped = "" then kbStdoutLoop true rest
        else
          let r := kbStdoutLoop true rest
          (r.1, stripped :: r.2)
      else
        let r := kbStdoutLoop false rest
        (line :: r.1, r.2)

/-- The pure part of `query_kb`: parse the subprocess stdout into
`(markdown_text, exported_images)` (process invocation itself is external). -/
def query_kb_parse_stdout (stdout : String) : String × List String :=
  let r := kbStdoutLoop false (pySplitlines stdout)
  (pyStrip (pyJoin "\n" r.1), r.2)

/-! ### `backend/services/intent_router.py` -/

inductive Intent where
  | KB_QUERY
  | ORCH_FLOW
deriving Repr, DecidableEq

def Intent.value : Intent → String
  | .KB_QUERY => "KB_QUERY"
  | .ORCH_FLOW => "ORCH_FLOW"

def KB_STRONG_KEYWORDS : List String :=
  ["查询知识库", "查知识库", "用知识库", "调用知识库", "交易规则", "交易系统规则"]

def ORCH_STRONG_KEYWORDS : List String :=
  ["系统改动点", "改动点", "需求分析", "生成需求分析"]

/-- The single weak ORCH_FLOW pattern is a plain alternation of action verbs. -/
def ORCH_ACTION_WORDS : List String :=
  ["新增", "增加", "添加", "修改", "调整", "优化", "去掉", "移除", "删除",
   "隐藏", "改为", "改成", "替换", "升级", "重构", "上线", "需要"]

/-- The weak KB_QUERY patterns all have the shape
`(?:a1|a2|...).*(?:b1|b2|...)`, given here as (firsts, seconds). -/
def KB_QUESTION_PATTERNS : List (List String × List String) := [
  (["什么", "怎么", "如何", "哪些", "几", "多少", "是否", "有没有", "能否"],
   ["规则", "流程", "逻辑", "配置", "现状", "机制", "策略", "方案"]),
  (["规则", "流程", "逻辑", "配置", "现状", "机制", "策略", "方案"],
   ["是什么", "有哪些", "怎么样", "如何"]),
  (["定投", "调仓", "赎回", "申购", "追加", "份额", "基金", "组合", "持仓", "下单", "拆单"],
   ["规则", "流程", "逻辑", "怎么", "是什么", "有哪些"]),
  (["规则", "流程", "逻辑"],
   ["定投", "调仓", "赎回", "申购", "追加", "份额", "基金", "组合", "持仓", "下单", "拆单"])]

/-- Remainder of the list after the first occurrence of `needle`. -/
def findSubSuffix (needle : List Char) : List Char → Option (List Char)
  | [] => if needle.isEmpty then some [] else none
  | c :: rest =>
      if needle.isPrefixOf (c :: rest) then some ((c :: rest).drop needle.length)
      else findSubSuffix needle rest

/-- `re.search` of `(?:firsts).*(?:seconds)` within one line: some first
alternative occurs, and some second alternative occurs after it. -/
def seqMatchLine (firsts seconds : List String) (line : String) : Bool :=
  firsts.any fun a =>
    match findSubSuffix a.data line.data with
    | some suffix => seconds.any fun b => subList b.data suffix
    | none => false

/-- `re.search` of such a pattern over the whole text (`.` does not cross
newlines, and no alternative contains one, so a match lives inside a line). -/
def regexSearchSeq (firsts seconds : List String) (s : String) : Bool :=
  (pySplitChar '\n' s).any fun line => seqMatchLine firsts seconds line

/-- `_rule_based_detect` (confidence scaled by ten: `1.0 ↦ 10`, `0.7 ↦ 7`,
`0.0 ↦ 0`; the source's float literals are exact in tenths). -/
def rule_based_detect (text : String) : Option Intent × Nat :=
  let normalized := pyStrip text
  if normalized = "" then (some .ORCH_FLOW, 10)
  else if strInAny KB_STRONG_KEYWORDS normalized then (some .KB_QUERY, 10)
  else if strInAny ORCH_STRONG_KEYWORDS normalized then (some .ORCH_FLOW, 10)
  else
    let kb_score :=
      (KB_QUESTION_PATTERNS.filter fun p => regexSearchSeq p.1 p.2 normalized).length
    let orch_score := if strInAny ORCH_ACTION_WORDS normalized then 1 else 0
    if kb_score > 0 && orch_score == 0 then (some .KB_QUERY, 7)
    else if orch_score > 0 && kb_score == 0 then (some .ORCH_FLOW, 7)
    else (none, 0)

/-- `detect_intent`: rule-only fast path, defaulting to the document flow. -/
def detect_intent (text : String) : Intent :=
  match (rule_based_detect text).1 with
  | some i => i
  | none => .ORCH_FLOW

/-! ### `backend/services/kb_query_enhanced.py` -/

/-- `_normalize_query`: whitespace normalization. -/
def normalize_query (q : String) : String :=
  pyJoin " " (pySplitWs (pyStrip q))

/-- `_dedup_keep_order` body: strip, drop blanks, first-seen order. -/
def dedupKeepOrderAux (seen : List String) : List String → List String
  | [] => []
  | it :: rest =>
      let s := pyStrip it
      if s = "" then dedupKeepOrderAux seen rest
      else if seen.contains s then dedupKeepOrderAux seen rest
      else s :: dedupKeepOrderAux (s :: seen) rest

def dedup_keep_order (items : List String) : List String :=
  dedupKeepOrderAux [] items

/-- `_merge_kb_markdown`: single results pass through unwrapped; several get
per-sub-query headers joined by a separator. -/
def merge_kb_markdown (results : List (String × String)) : String :=
  match results with
  | [single] => pyStrip single.2
  | _ =>
      let parts := results.enum.filterMap fun e =>
        let md := pyStrip e.2.2
        if md = "" then none
        else
          some ("### 检索子问题 " ++ toString (e.1 + 1) ++ "\n\n- query: " ++
            pyStrip e.2.1 ++ "\n" ++ "\n" ++ md)
      pyStrip (pyJoin "\n\n---\n\n" parts)

/-- `OrchestratorSession` (from `orchestrator_controller.py`): the in-memory
per-conversation record. -/
structure OrchestratorSession where
  session_id : String
  user_request : String
  state : String
  open_questions : List String
  user_answers : List String
  knowledge_markdown : String
  kb_image_urls : List String
  draft_struct : PyVal
  last_defend_questions : List String
  requirement_structured : PyVal
deriving Repr

/-- Configuration bits and per-call outcomes of the external collaborators,
passed to the pipeline as oracles (`none` models a raised exception).  The
`collect` and `answer_questions` oracles summarize `_ensure_collect` and
`orchestrator_controller.answer_questions`, whose bodies mix KB subprocess
calls, LLM calls and filesystem probing; no claim depends on their values. -/
structure PipelineEnv where
  kb_query_llm_enabled : Bool
  llm_configured : Bool
  kb_query_max_subqueries : Nat
  kb_query_max_merged_chars : Nat
  retrieve : String → Option (List String) → Except PyErr (String × List String)
  llm_expand_kb_queries : String → Option (List String)
  llm_kb_synthesize : String → String → Option String
  llm_confirmer_parse : PyVal → String → Option PyVal
  fresh_conv_id : String
  fresh_session_id : String
  collect : OrchestratorSession → Except PyErr OrchestratorSession
  answer_questions : OrchestratorSession → String →
    Except PyErr (OrchestratorSession × String)

/-- One `kb_runs` diagnostic entry (durations are wall-clock and omitted). -/
inductive KbRun where
  | expand (queries : List String)
  | retrieveOk (query : String) (chars : Nat) (images : Nat)
  | retrieveErr (query : String) (error : String)
  | synthesize (used_llm : Bool)
deriving Repr, DecidableEq

structure EnhancedResult where
  final_markdown : String
  raw_markdown : String
  sub_queries : List String
  used_llm : Bool
  kb_runs : List KbRun
  image_paths : List String
deriving Repr

/-- Candidate sub-query set of `enhanced_kb_query`.  The source guards the
expansion in `try/except Exception`, but `llm_expand_kb_queries` is a plain
synchronous function, so `await llm_expand_kb_queries(...)` raises a
TypeError on the returned list regardless of the LLM outcome; the except
clause catches it and the fallback keeps the single normalized query. -/
def subQueriesOf (_env : PipelineEnv) (q0 : String) : List String := [q0]

/-- Only the first candidate may carry the caller's images. -/
def kbCallImages (image_paths : List String) (i : Nat) : Option (List String) :=
  if i = 0 && !image_paths.isEmpty then some image_paths else none

structure KbLoopState where
  seen_md : List String
  per_query : List (String × String)
  merged_images : List String
  runs : List KbRun
  had_success : Bool
deriving Repr

/-- The exception raised by `await query_kb(...)`: `query_kb` is a plain
synchronous function returning a tuple, which is not awaitable. -/
def TYPEERROR_AWAIT_TUPLE : String :=
  "TypeError: object tuple can not be used in await expression"

/-- One iteration of the multi-retrieval loop of `enhanced_kb_query`.  A
`KBQueryError` raised by `query_kb` is caught by the loop's except clause
and recorded; on a successful call, however, the `await` on the returned
tuple raises a TypeError before `had_success` is set (and before any of the
success-processing lines run), and no clause catches it — the whole
operation aborts. -/
def kbRetrieveStep (env : PipelineEnv) (image_paths : List String)
    (st : KbLoopState) (isq : Nat × String) : Except PyErr KbLoopState :=
  match env.retrieve isq.2 (kbCallImages image_paths isq.1) with
  | .error e => .ok { st with runs := st.runs ++ [.retrieveErr isq.2 e] }
  | .ok _ => .error TYPEERROR_AWAIT_TUPLE

def KB_ALL_FAILED_ERROR : String := "KB 查询失败：所有检索子问题均未成功返回结果。"

/-- `enhanced_kb_query`: expansion (always discarded, see `subQueriesOf`),
then the retrieval loop; the tail after the loop is the faithful translation
of the source but is unreachable for non-empty queries — a successful
retrieval aborts the loop with the awaited-tuple TypeError, so `had_success`
can never become true and the all-failed `KBQueryError` is raised whenever
the loop completes.  In the tail, `await llm_kb_synthesize(...)` would raise
the same TypeError, caught by its `except Exception`, so the merged raw
markdown would be returned un-synthesized with `used_llm = False`. -/
def enhanced_kb_query (env : PipelineEnv) (user_query : String)
    (image_paths : List String) : Except PyErr EnhancedResult :=
  let q0 := normalize_query user_query
  if q0 = "" then
    .ok { final_markdown := "", raw_markdown := "", sub_queries := [],
          used_llm := false, kb_runs := [], image_paths := [] }
  else
    let sub_queries := subQueriesOf env q0
    match sub_queries.enum.foldlM (kbRetrieveStep env image_paths)
      { seen_md := [], per_query := [], merged_images := [],
        runs := [KbRun.expand sub_queries], had_success := false } with
    | .error e => .error e
    | .ok st =>
        if !st.had_success then
          .error KB_ALL_FAILED_ERROR
        else
          let merged_images := dedup_keep_order st.merged_images
          let raw0 := merge_kb_markdown st.per_query
          let raw_markdown := if raw0 = "" then "[空结果]" else raw0
          .ok { final_markdown := raw_markdown, raw_markdown := raw_markdown,
                sub_queries := sub_queries, used_llm := false,
                kb_runs := st.runs ++ [KbRun.synthesize false],
                image_paths := merged_images }

/-! ### `backend/db.py` (list model of the SQLite tables) -/

structure DbMessage where
  conversation_id : String
  role : String
  payload_type : String
  content : String
deriving Repr, DecidableEq

/-- Conversation row: (id, intent, status); row order is creation order
(standing in for `created_at`). -/
structure Db where
  conversations : List (String × String × String)
  messages : List DbMessage
deriving Repr

def Db.convStatus (db : Db) (conv_id : String) : Option String :=
  (db.conversations.find? fun c => c.1 = conv_id).map fun c => c.2.2

/-- `add_message`: INSERT into messages. -/
def add_message (db : Db) (conv_id role payload_type content : String) : Db :=
  { db with messages := db.messages ++
      [{ conversation_id := conv_id, role := role,
         payload_type := payload_type, content := content }] }

/-- `trim_old_conversations(10)`: keep the ten most recently created
conversations and delete older ones together with their messages. -/
def trim_old_conversations (db : Db) (max_count : Nat) : Db :=
  if max_count = 0 then db
  else
    let keep := (db.conversations.reverse.take max_count).reverse
    let keptIds := keep.map (·.1)
    { conversations := keep
      messages := db.messages.filter fun m => keptIds.contains m.conversation_id }

/-- `create_conversation`: INSERT OR IGNORE, then trim to the newest ten. -/
def create_conversation (db : Db) (conv_id intent status : String) : Db :=
  let db1 :=
    if (db.conversations.any fun c => c.1 = conv_id) then db
    else { db with conversations := db.conversations ++ [(conv_id, intent, status)] }
  trim_old_conversations db1 10

/-- `update_conversation_status`: UPDATE the status of a stored row. -/
def update_conversation_status (db : Db) (conv_id status : String) : Db :=
  { db with conversations := db.conversations.map fun c =>
      if c.1 = conv_id then (c.1, c.2.1, status) else c }

/-! ### `backend/services/orchestrator_controller.py` (the parts the claims
touch: `apply_defend_answers` and the session store) -/

/-- The process-wide `_SESSIONS` map, as an association list. -/
abbrev SessionMap := List (String × OrchestratorSession)

def sessionsFind (m : SessionMap) (sid : String) : Option OrchestratorSession :=
  (m.find? fun e => e.1 = sid).map (·.2)

def sessionsPut : SessionMap → String → OrchestratorSession → SessionMap
  | [], sid, sess => [(sid, sess)]
  | e :: rest, sid, sess =>
      if e.1 = sid then (sid, sess) :: rest else e :: sessionsPut rest sid sess

/-- Modelled from the spec: `persist_session` is called by the pipeline but
is missing from the provided sources (only its callers are present).  §9
specifies the session store as a get/put map abstraction over the in-memory
session map, so it stores the (mutated) session under its id. -/
def persist_session (m : SessionMap) (sess : OrchestratorSession) : SessionMap :=
  sessionsPut m sess.session_id sess

def SUPPLEMENT_SEPARATOR : String := "\n\n【补充说明】"

/-- `apply_defend_answers`: merge a DEFEND-round answer into
`system_changes.change_overview` and log the question/answer pair. -/
def apply_defend_answers (m : SessionMap) (session_id answer_text : String) :
    Except PyErr (OrchestratorSession × SessionMap) := do
  match sessionsFind m session_id with
  | none => .error ("KeyError: session " ++ session_id ++ " not found")
  | some sess => do
      let chDraft ← PyVal.setdefault sess.draft_struct "system_changes" (.obj [])
      let ch := chDraft.1
      let draft1 := chDraft.2
      let orig0 ← pyGetD ch "change_overview"
      let orig := pyOrElse orig0 (.str "")
      let contains ← pyInStr "（待" orig
      let newCo ←
        if contains then pure (PyVal.str answer_text)
        else if orig.truthy then
          match orig with
          | .str s => pure (PyVal.str (s ++ SUPPLEMENT_SEPARATOR ++ answer_text))
          | _ => .error "TypeError: can only concatenate str"
        else pure (PyVal.str answer_text)
      let ch2 ← PyVal.setItem ch "change_overview" newCo
      let draft2 ← PyVal.setItem draft1 "system_changes" ch2
      let brDraft ← PyVal.setdefault draft2 "business_requirement" (.obj [])
      let br := brDraft.1
      let draft3 := brDraft.2
      let clLogBr ← PyVal.setdefault br "clarification_log" (.obj [])
      let cl_log := clLogBr.1
      let br1 := clLogBr.2
      let itemsLog ← PyVal.setdefault cl_log "items" (.list [])
      let cl := itemsLog.1
      let cl_log1 := itemsLog.2
      let clFinal :=
        match cl with
        | .list xs =>
            if !sess.last_defend_questions.isEmpty then
              PyVal.list (xs ++ [.obj [
                ("question", .str (pyJoin "\n" sess.last_defend_questions)),
                ("answer", .str answer_text),
                ("source", .str "defend")]])
            else PyVal.list xs
        | v => v
      let cl_log2 ← PyVal.setItem cl_log1 "items" clFinal
      let br2 ← PyVal.setItem br1 "clarification_log" cl_log2
      let draft4 ← PyVal.setItem draft3 "business_requirement" br2
      let sessNew := { sess with draft_struct := draft4, state := "DEFENDING" }
      pure (sessNew, sessionsPut m session_id sessNew)

/-! ### `confirmer_service._draft_to_markdown` / `get_display` -/

/-- `_draft_to_markdown(draft)`: the draft-stage markdown display (same
extraction pattern as `render_final`, without risks / clarification log). -/
def draft_to_markdown (draft : PyVal) : Except PyErr String := do
  let br0 ← pyGetD draft "business_requirement"
  let br := pyOrElse br0 (.obj [])
  let sc0 ← pyGetD draft "system_current"
  let sc := pyOrElse sc0 (.obj [])
  let ch0 ← pyGetD draft "system_changes"
  let ch := pyOrElse ch0 (.obj [])
  let ds ← pyGetD br "demand_source"
  let demand_source := sanitize_draft_text ds "（待补充）"
  let ps ← pyGetD br "product_statement"
  let product_statement := sanitize_draft_text ps "（待补充）"
  let brules ← pyGetD sc "business_rules"
  let business_rules := sanitize_draft_text brules "（待补充）"
  let fec0 ← pyGetD sc "frontend_current"
  let fed ← pyGetD (pyOrElse fec0 (.obj [])) "description"
  let fe_desc := sanitize_draft_text fed "（待补充）"
  let be0 ← pyGetD sc "backend_current"
  let be_obj := pyOrElse be0 (.obj [])
  let be_desc :=
    match be_obj with
    | .obj fs =>
        sanitize_draft_text ((PyVal.lookupKey fs "description").getD .null) "（待补充）"
    | v => sanitize_draft_text (.str (pyStr v)) "（待补充）"
  let be_steps :=
    match be_obj with
    | .obj fs => sanitize_draft_text ((PyVal.lookupKey fs "steps_text").getD .null) ""
    | _ => ""
  let be_flow :=
    match be_obj with
    | .obj fs => sanitize_draft_text ((PyVal.lookupKey fs "flow_mermaid").getD .null) ""
    | _ => ""
  let nt ← pyGetD sc "notification_current"
  let nt_desc ←
    match nt with
    | .str s => pure (sanitize_draft_text (.str s) "（待补充）")
    | v => do
        let d ← PyVal.getAttr v "description"
        pure (sanitize_draft_text (d.getD .null) "（待补充）")
  let nt_table :=
    match nt with
    | .obj fs => sanitize_draft_text ((PyVal.lookupKey fs "table_markdown").getD .null) ""
    | _ => ""
  let co0 ← pyGetD ch "change_overview"
  let co ← if co0.truthy then pure co0 else pyGetD ch "business_changes"
  let change_overview := sanitize_draft_text co "（待补充）"
  let fch0 ← pyGetD ch "frontend_changes"
  let fchd ← pyGetD (pyOrElse fch0 (.obj [])) "description"
  let fe_ch := sanitize_draft_text fchd "（待补充）"
  let beCh ← pyGetD ch "backend_changes"
  let beChObj := pyOrElse beCh (.obj [])
  let be_ch_overview :=
    match beChObj with
    | .obj fs => sanitize_draft_text ((PyVal.lookupKey fs "overview").getD .null) ""
    | _ => ""
  let be_ch_steps :=
    match beChObj with
    | .obj fs => sanitize_draft_text ((PyVal.lookupKey fs "steps_text").getD .null) ""
    | _ => ""
  let be_ch_flow :=
    match beChObj with
    | .obj fs => sanitize_draft_text ((PyVal.lookupKey fs "flow_mermaid").getD .null) ""
    | _ => ""
  let be_ch_legacy :=
    match beChObj with
    | .obj fs =>
        sanitize_draft_text
          (pyOrElse ((PyVal.lookupKey fs "description_display").getD .null)
            ((PyVal.lookupKey fs "description").getD .null)) ""
    | v => sanitize_draft_text (.str (pyStr v)) ""
  let nt_ch ← pyGetD ch "notification_changes"
  let nt_ch_desc ←
    match nt_ch with
    | .str s => pure (sanitize_draft_text (.str s) "（待补充）")
    | v => do
        let d ← PyVal.getAttr v "description"
        pure (sanitize_draft_text (d.getD .null) "（待补充）")
  let nt_ch_table :=
    match nt_ch with
    | .obj fs => sanitize_draft_text ((PyVal.lookupKey fs "table_markdown").getD .null) ""
    | _ => ""
  let imgs0 ← pyGetD sc "image_urls"
  let imageUrlsVal := pyOrElse imgs0 (.list [])
  let imageUrls ← if imageUrlsVal.truthy then PyVal.iterate imageUrlsVal else pure []

  let base := "# 需求分析文档草稿\n\n## 一、业务需求\n\n- 需求来源：" ++ demand_source ++
    "\n- 产品化表述：" ++ product_statement ++
    "\n\n---\n\n## 二、系统现状\n\n### 业务规则与逻辑\n\n" ++ business_rules ++ "\n"
  let base := base ++ "\n\n### 前端现状\n\n" ++ fe_desc ++
    "\n\n### 后端现状\n\n" ++ be_desc ++ "\n"
  let base :=
    if pyStrip be_steps ≠ "" then
      base ++ "\n\n#### 后端现状步骤（系统级别）\n\n" ++ pyStrip be_steps ++ "\n"
    else base
  let base :=
    if pyStrip be_flow ≠ "" then
      base ++ "\n\n#### 后端现状流程图（系统级别）\n\n" ++ pyStrip be_flow ++ "\n"
    else base
  let base := base ++ "\n\n### 通知现状\n\n" ++ nt_desc ++ "\n"
  let base :=
    if pyStrip nt_table ≠ "" then
      base ++ "\n\n#### 通知现状表格\n\n" ++ pyStrip nt_table ++ "\n"
    else base
  let base :=
    if !imageUrls.isEmpty then
      base ++ "\n### 附图（来自知识库）\n" ++
        pyJoin "\n" (imageUrls.map fun u => "![附图](" ++ pyStr u ++ ")")
    else base
  let base := base ++ "\n\n---\n\n## 三、系统改动点\n\n### 改动总览\n\n" ++
    change_overview ++ "\n\n### 前端改动点\n\n" ++ fe_ch ++ "\n\n### 后端改动点\n\n"
  let base :=
    if pyStrip be_ch_overview ≠ "" || pyStrip be_ch_steps ≠ "" || pyStrip be_ch_flow ≠ "" then
      let base := if pyStrip be_ch_overview ≠ "" then base ++ pyStrip be_ch_overview ++ "\n\n" else base
      let base := if pyStrip be_ch_steps ≠ "" then
        base ++ "#### 后端改动步骤\n\n" ++ pyStrip be_ch_steps ++ "\n\n" else base
      if pyStrip be_ch_flow ≠ "" then
        base ++ "#### 后端改动流程图\n\n" ++ pyStrip be_ch_flow ++ "\n"
      else base
    else
      base ++ (if pyStrip be_ch_legacy ≠ "" then pyStrip be_ch_legacy else "（待补充）") ++ "\n"
  let base := base ++ "\n\n### 通知改动点\n\n" ++ nt_ch_desc ++ "\n"
  let base :=
    if pyStrip nt_ch_table ≠ "" then
      base ++ "\n\n#### 通知改动表格\n\n" ++ pyStrip nt_ch_table ++ "\n"
    else base
  let base :=
    if !imageUrls.isEmpty then
      base ++ "\n\n### 附图（来自知识库）\n" ++
        pyJoin "\n" (imageUrls.map fun u => "![附图](" ++ pyStr u ++ ")")
    else base
  pure base

/-! ### `backend/services/agent_pipeline.py` -/

/-- Pipeline event (`trace` details omit wall-clock durations; the claims
only depend on terminal events). -/
inductive Event where
  | trace (phase title level : String) : Event
  | error (message : String) (status_code : Nat) : Event
  | final (sessionId : Option String) (intent : String) (payloadType : String)
      (content : PyVal) : Event
deriving Repr

def Event.isTerminal : Event → Bool
  | .trace _ _ _ => false
  | _ => true

/-- The shared mutable world of one pipeline run: the session map and the
conversation store. -/
structure PipeState where
  sessions : SessionMap
  db : Db
deriving Repr

/-- Events yielded so far, the state at that point, and an uncaught exception
(if any) to be converted by the top-level handler of `process`. -/
abbrev HandlerOut := List Event × PipeState × Option PyErr

/-- `_save_trace`: appends the serialized progress trail as a TRACE message
(the JSON text carries wall-clock timestamps and is kept opaque here). -/
def save_trace (db : Db) (conv_id : String) : Db :=
  add_message db conv_id "assistant" "TRACE" "[trace]"

/-- `os.path.basename` for the POSIX paths the KB exports. -/
def pyBasename (p : String) : String :=
  (p.splitOn "/").getLastD p

/-- `kb_image_paths_to_urls`. -/
def kb_image_paths_to_urls (paths : List String) : List String :=
  paths.map fun p => "/api/kb-images/" ++ pyBasename p

/-- The `kb_runs` dictionaries as dynamic values (durations omitted). -/
def KbRun.toPyVal : KbRun → PyVal
  | .expand qs => .obj [("stage", .str "expand_queries"),
      ("queries", .list (qs.map PyVal.str))]
  | .retrieveOk q chars images => .obj [("stage", .str "kb_retrieve"),
      ("query", .str q), ("ok", .bool true), ("chars", .int chars),
      ("images", .int images)]
  | .retrieveErr q e => .obj [("stage", .str "kb_retrieve"),
      ("query", .str q), ("ok", .bool false), ("error", .str e)]
  | .synthesize u => .obj [("stage", .str "synthesize"), ("used_llm", .bool u)]

/-- `f"{i+1}. {q}"` lines joined, as used for OPEN_QUESTIONS messages. -/
def numberedJoin (qs : List String) : String :=
  pyJoin "\n" (qs.enum.map fun e => toString (e.1 + 1) ++ ". " ++ e.2)

def PyVal.eqStr (v : PyVal) (s : String) : Bool :=
  match v with
  | .str t => t = s
  | _ => false

/-- The `revised`-with-updates merge of `_handle_confirm`: copy the
string-valued keys of the suggested `business_requirement` object into the
draft's `business_requirement`. -/
def apply_revised_updates (draft updates : PyVal) : Except PyErr PyVal := do
  let brDraft ← PyVal.setdefault draft "business_requirement" (.obj [])
  let br := brDraft.1
  let draft1 := brDraft.2
  let u0 ← pyGetD updates "business_requirement"
  let uBr := pyOrElse u0 (.obj [])
  let items ←
    match uBr with
    | .obj fs => pure fs
    | _ => Except.error "AttributeError: object has no attribute items"
  let brFinal ← items.foldlM (fun b kv =>
    match kv.2 with
    | .str _ => PyVal.setItem b kv.1 kv.2
    | _ => pure b) br
  PyVal.setItem draft1 "business_requirement" brFinal

def INFO_REDO_MESSAGE : String :=
  "已记录您的重做要求；当前版本将先进入完整性检查并生成文档。后续版本将支持按块/整体重做。若需继续，请回复「确认」。"

def INFO_REDO_CONTENT : String := "已记录重做要求，请回复「确认」继续。"

def INFO_DONE_MESSAGE : String := "会话已完成，更多能力将在后续版本中提供。"

/-- `_defend_and_maybe_finalize`: completeness check, then either follow-up
questions or final rendering. -/
def defend_and_maybe_finalize (st : PipeState) (sess : OrchestratorSession) :
    HandlerOut :=
  let ev1 := Event.trace "DEFEND" "services.defender_service.check_draft · 开始" "info"
  match check_draft sess.draft_struct with
  | .error e => ([ev1], st, some e)
  | .ok result =>
      let ev2 := Event.trace "DEFEND" "services.defender_service.check_draft · 完成" "info"
      if !result.is_complete && !result.questions.isEmpty then
        let sess1 := { sess with last_defend_questions := result.questions }
        let st1 : PipeState := { st with sessions := persist_session st.sessions sess1 }
        let db1 := save_trace st1.db sess1.session_id
        let db2 := add_message db1 sess1.session_id "assistant" "OPEN_QUESTIONS"
          (numberedJoin result.questions)
        let ev3 := Event.trace "DEFEND" "services.defender_service.check_draft · 待补充信息" "warn"
        let evFinal := Event.final (some sess1.session_id) (Intent.ORCH_FLOW.value)
          "OPEN_QUESTIONS" (.obj [("questions", .list (result.questions.map PyVal.str))])
        ([ev1, ev2, ev3, evFinal], { st1 with db := db2 }, none)
      else
        let ev3 := Event.trace "EDITOR" "services.editor_service.render_final · 开始" "info"
        match render_final sess.draft_struct with
        | .error e => ([ev1, ev2, ev3], st, some e)
        | .ok final_md =>
            let ev4 := Event.trace "EDITOR" "services.editor_service.render_final · 完成" "info"
            let db1 := save_trace st.db sess.session_id
            let db2 := add_message db1 sess.session_id "assistant" "FINAL_DOC" final_md
            let db3 := update_conversation_status db2 sess.session_id "done"
            let sess1 := { sess with state := "DONE" }
            let sessions1 := persist_session st.sessions sess1
            let evFinal := Event.final (some sess.session_id) (Intent.ORCH_FLOW.value)
              "FINAL_DOC" (.obj [("markdown", .str final_md)])
            ([ev1, ev2, ev3, ev4, evFinal], { sessions := sessions1, db := db3 }, none)

/-- `_handle_confirm`: classify the feedback, apply any `revised` updates,
then defend. -/
def handle_confirm (env : PipelineEnv) (st : PipeState)
    (sess : OrchestratorSession) (text : String) : HandlerOut :=
  let ev1 := Event.trace "CONFIRM" "services.confirmer_service.parse_feedback · 开始" "info"
  let st1 : PipeState :=
    { st with db := add_message st.db sess.session_id "user" "USER_FEEDBACK" text }
  match parse_feedback env.llm_confirmer_parse sess.draft_struct text with
  | .error e => ([ev1], st1, some e)
  | .ok pr =>
      let ev2 := Event.trace "CONFIRM" "services.confirmer_service.parse_feedback · 完成" "info"
      if pr.status.eqStr "needs_clarification" && pr.clarification_question.truthy then
        let db1 := save_trace st1.db sess.session_id
        let db2 := add_message db1 sess.session_id "assistant" "OPEN_QUESTIONS"
          (pyStr pr.clarification_question)
        let evFinal := Event.final (some sess.session_id) (Intent.ORCH_FLOW.value)
          "OPEN_QUESTIONS" (.obj [("questions", .list [pr.clarification_question])])
        ([ev1, ev2, evFinal], { st1 with db := db2 }, none)
      else if pr.status.eqStr "request_redo_partial" || pr.status.eqStr "request_redo_full" then
        let db1 := save_trace st1.db sess.session_id
        let db2 := add_message db1 sess.session_id "assistant" "INFO" INFO_REDO_MESSAGE
        let evFinal := Event.final (some sess.session_id) (Intent.ORCH_FLOW.value)
          "INFO" (.obj [("message", .str INFO_REDO_CONTENT)])
        ([ev1, ev2, evFinal], { st1 with db := db2 }, none)
      else
        let merged : Except PyErr PyVal :=
          if pr.status.eqStr "revised" && pr.suggested_draft_updates.truthy then
            apply_revised_updates sess.draft_struct pr.suggested_draft_updates
          else .ok sess.draft_struct
        match merged with
        | .error e => ([ev1, ev2], st1, some e)
        | .ok draft1 =>
            let sess1 := { sess with draft_struct := draft1, state := "DEFENDING" }
            let st2 : PipeState := { st1 with sessions := persist_session st1.sessions sess1 }
            let r := defend_and_maybe_finalize st2 sess1
            ([ev1, ev2] ++ r.1, r.2.1, r.2.2)

/-- `_handle_defend`: apply the supplementary answer, then defend. -/
def handle_defend (st : PipeState) (sess : OrchestratorSession) (text : String) :
    HandlerOut :=
  let ev1 := Event.trace "DEFEND"
    "services.orchestrator_controller.apply_defend_answers · 应用补充说明" "info"
  let st1 : PipeState :=
    { st with db := add_message st.db sess.session_id "user" "USER_DEFEND" text }
  match apply_defend_answers st1.sessions sess.session_id text with
  | .error e => ([ev1], st1, some e)
  | .ok (sess1, sessions1) =>
      let r := defend_and_maybe_finalize { st1 with sessions := sessions1 } sess1
      (ev1 :: r.1, r.2.1, r.2.2)

/-- `_handle_kb_query`: run the enhanced retrieval and emit the KB answer.
Its `except KBQueryError` catches the all-failed error and yields it as an
error event; the awaited-tuple TypeError raised when a retrieval succeeds is
not a `KBQueryError` and propagates to the top-level handler of `process`. -/
def handle_kb_query (env : PipelineEnv) (st : PipeState) (text : String)
    (image_paths : List String) (intent : Intent) : HandlerOut :=
  let ev1 := Event.trace "KB" "services.kb_query_enhanced.enhanced_kb_query · 开始" "info"
  match enhanced_kb_query env text image_paths with
  | .error e =>
      if e = TYPEERROR_AWAIT_TUPLE then ([ev1], st, some e)
      else ([ev1, Event.error e 500], st, none)
  | .ok result =>
      let ev2 := Event.trace "KB" "services.kb_query_enhanced.enhanced_kb_query · 完成" "info"
      let image_urls := kb_image_paths_to_urls result.image_paths
      let conv_id := env.fresh_conv_id
      let db1 := create_conversation st.db conv_id intent.value "done"
      let db2 := add_message db1 conv_id "user" "USER_QUERY" text
      let db3 := save_trace db2 conv_id
      let db4 := add_message db3 conv_id "assistant" "KB_ANSWER"
        (if result.final_markdown = "" then "[空结果]" else result.final_markdown)
      let content := PyVal.obj [
        ("markdown", .str result.final_markdown),
        ("images", .list (image_urls.map PyVal.str)),
        ("usedLLM", .bool result.used_llm),
        ("subQueries", .list (result.sub_queries.map PyVal.str)),
        ("rawMarkdown", .str result.raw_markdown),
        ("kbRuns", .list (result.kb_runs.map KbRun.toPyVal))]
      let evFinal := Event.final none intent.value "KB_ANSWER" content
      ([ev1, ev2, evFinal], { st with db := db4 }, none)

/-- `create_session`: fresh session in COLLECT state, stored in the map. -/
def create_session (m : SessionMap) (session_id user_request : String) :
    OrchestratorSession × SessionMap :=
  let sess : OrchestratorSession :=
    { session_id := session_id, user_request := user_request, state := "COLLECT",
      open_questions := [], user_answers := [], knowledge_markdown := "",
      kb_image_urls := [], draft_struct := .obj [], last_defend_questions := [],
      requirement_structured := .obj [] }
  (sess, sessionsPut m session_id sess)

/-- `_handle_new_orch`: new document-flow conversation (COLLECT round). -/
def handle_new_orch (env : PipelineEnv) (st : PipeState) (text : String)
    (intent : Intent) : HandlerOut :=
  let ev1 := Event.trace "COLLECT"
    "services.orchestrator_controller.create_session · 创建会话" "info"
  let sm := create_session st.sessions env.fresh_session_id text
  let sess0 := sm.1
  let st1 : PipeState := { st with sessions := sm.2 }
  let ev2 := Event.trace "COLLECT"
    "services.orchestrator_controller.get_open_questions · 开始" "info"
  match env.collect sess0 with
  | .error e => ([ev1, ev2], st1, some e)
  | .ok sess1 =>
      let questions := sess1.open_questions
      let st2 : PipeState := { st1 with sessions := sessionsPut st1.sessions sess1.session_id sess1 }
      let ev3 := Event.trace "COLLECT"
        "services.orchestrator_controller.get_open_questions · 完成" "info"
      let db1 := create_conversation st2.db sess1.session_id intent.value "active"
      let db2 := add_message db1 sess1.session_id "user" "USER_REQUEST" text
      let db3 := save_trace db2 sess1.session_id
      let db4 :=
        if !questions.isEmpty then
          add_message db3 sess1.session_id "assistant" "OPEN_QUESTIONS" (numberedJoin questions)
        else db3
      let evFinal := Event.final (some sess1.session_id) intent.value
        "OPEN_QUESTIONS" (.obj [("questions", .list (questions.map PyVal.str))])
      ([ev1, ev2, ev3, evFinal], { st2 with db := db4 }, none)

/-- `_handle_answer`: consume the user's answer, rebuild the draft, display it. -/
def handle_answer (env : PipelineEnv) (st : PipeState)
    (sess : OrchestratorSession) (text : String) : HandlerOut :=
  let ev1 := Event.trace "BUILD_DRAFT"
    "services.orchestrator_controller.answer_questions · 开始" "info"
  let st1 : PipeState :=
    { st with db := add_message st.db sess.session_id "user" "USER_ANSWER" text }
  match env.answer_questions sess text with
  | .error e => ([ev1], st1, some e)
  | .ok (sess1, _draft_md) =>
      match draft_to_markdown sess1.draft_struct with
      | .error e =>
          ([ev1], { st1 with sessions := sessionsPut st1.sessions sess1.session_id sess1 }, some e)
      | .ok display =>
          let ev2 := Event.trace "BUILD_DRAFT"
            "services.orchestrator_controller.answer_questions · 完成" "info"
          let st2 : PipeState :=
            { st1 with sessions := sessionsPut st1.sessions sess1.session_id sess1 }
          let db1 := save_trace st2.db sess1.session_id
          let db2 := add_message db1 sess1.session_id "assistant" "DRAFT" display
          let evFinal := Event.final (some sess1.session_id) (Intent.ORCH_FLOW.value)
            "DRAFT" (.obj [("markdown", .str display),
              ("prompt_to_user", .str DEFAULT_PROMPT)])
          ([ev1, ev2, evFinal], { st2 with db := db2 }, none)

/-- `_new_conversation`: classify the intent, dispatch to the KB or document
flow. -/
def new_conversation (env : PipelineEnv) (st : PipeState) (text : String)
    (image_paths : List String) : HandlerOut :=
  let intent := detect_intent text
  let ev1 := Event.trace "INTENT" "services.intent_router.detect_intent · 完成" "info"
  let r :=
    match intent with
    | .KB_QUERY => handle_kb_query env st text image_paths intent
    | .ORCH_FLOW => handle_new_orch env st text intent
  (ev1 :: r.1, r.2.1, r.2.2)

def SESSION_NOT_FOUND_MESSAGE : String := "session 不存在或已过期"

/-- `AgentPipeline.process`: one inbound message, dispatching on session
state, with the top-level exception handler converting uncaught errors into
an error event (and best-effort trace save when a session was loaded). -/
def process (env : PipelineEnv) (st : PipeState) (text : String)
    (sessionId : Option String) (image_paths : List String) :
    List Event × PipeState :=
  let ev0 := Event.trace "INTENT" "pipeline · 收到请求" "info"
  match sessionId with
  | none =>
      let r := new_conversation env st text image_paths
      match r.2.2 with
      | some e => (ev0 :: r.1 ++ [Event.error e 500], r.2.1)
      | none => (ev0 :: r.1, r.2.1)
  | some sid =>
      let ev1 := Event.trace "INTENT"
        "services.orchestrator_controller.get_session · 加载会话" "info"
      match sessionsFind st.sessions sid with
      | none => ([ev0, ev1, Event.error SESSION_NOT_FOUND_MESSAGE 404], st)
      | some sess =>
          let ev2 := Event.trace "INTENT"
            "services.orchestrator_controller · 会话状态" "info"
          let r : HandlerOut :=
            if sess.state = "WAITING_ANSWERS" || sess.state = "COLLECT" then
              handle_answer env st sess text
            else if sess.state = "DRAFT_READY" || sess.state = "CONFIRMING" then
              handle_confirm env st sess text
            else if sess.state = "DEFENDING" then
              handle_defend st sess text
            else
              let evW := Event.trace "INTENT"
                "services.orchestrator_controller · 会话已完成" "warn"
              let db1 := save_trace st.db sess.session_id
              let db2 := add_message db1 sess.session_id "assistant" "INFO" INFO_DONE_MESSAGE
              let evFinal := Event.final (some sess.session_id) (Intent.ORCH_FLOW.value)
                "INFO" (.obj [("message", .str INFO_DONE_MESSAGE)])
              ([evW, evFinal], { st with db := db2 }, none)
          match r.2.2 with
          | some e =>
              let stErr : PipeState := { r.2.1 with db := save_trace r.2.1.db sess.session_id }
              ([ev0, ev1, ev2] ++ r.1 ++ [Event.error e 500], stErr)
          | none => ([ev0, ev1, ev2] ++ r.1, r.2.1)

/-! ### Shape conditions under which `render_final` cannot raise -/

/-- `v` is a dict literal. -/
def isObjPred (v : PyVal) : Bool :=
  match v with
  | .obj _ => true
  | _ => false

/-- The stored value is falsy (absent / `None`-like) or a dict, so that
`(v or {})` used by `render_final` yields a dict. -/
def objOrFalsy (v : PyVal) : Bool :=
  isObjPred (pyOrElse v (.obj []))

/-- Reading key `k` of `(v or {})` when that is a dict (`null` otherwise). -/
def safeGet (v : PyVal) (k : String) : PyVal :=
  match pyOrElse v (.obj []) with
  | .obj fs => (PyVal.lookupKey fs k).getD .null
  | _ => .null

/-- Notification sections may be a string, a dict, or `None`. -/
def strObjOrNull (v : PyVal) : Bool :=
  match v with
  | .str _ => true
  | .obj _ => true
  | .null => true
  | _ => false

/-- `risks` / `image_urls`: falsy, or something a `for` loop can iterate. -/
def iterOrFalsy (v : PyVal) : Bool :=
  !v.truthy ||
    (match v with
     | .list _ => true
     | .str _ => true
     | .obj _ => true
     | _ => false)

/-- `clarification_log.items`: falsy, or a list whose entries are dicts. -/
def clItemsSafe (v : PyVal) : Bool :=
  !v.truthy ||
    (match v with
     | .list xs => xs.all isObjPred
     | _ => false)

/-- Shape condition sufficient for `render_final` to return normally: the
draft is a dict and every section it dereferences is absent, `None`, or of
the type the renderer expects there. -/
def renderSafe (draft : PyVal) : Bool :=
  match draft with
  | .obj dfs =>
      let br0 := (PyVal.lookupKey dfs "business_requirement").getD .null
      let sc0 := (PyVal.lookupKey dfs "system_current").getD .null
      let ch0 := (PyVal.lookupKey dfs "system_changes").getD .null
      objOrFalsy br0 && objOrFalsy sc0 && objOrFalsy ch0 &&
      objOrFalsy (safeGet br0 "clarification_log") &&
      clItemsSafe (safeGet (safeGet br0 "clarification_log") "items") &&
      objOrFalsy (safeGet sc0 "frontend_current") &&
      strObjOrNull (safeGet sc0 "notification_current") &&
      iterOrFalsy (safeGet sc0 "image_urls") &&
      objOrFalsy (safeGet ch0 "frontend_changes") &&
      strObjOrNull (safeGet ch0 "notification_changes") &&
      iterOrFalsy (safeGet ch0 "risks")
  | _ => false

/-! ### String lemmas -/

theorem subList_iff_isInfix (n h : List Char) : subList n h = true ↔ n <:+: h := by
  induction h with
  | nil =>
      simp [subList, List.isEmpty_iff, List.infix_nil]
  | cons c t ih =>
      simp [subList, List.infix_cons_iff, ih, List.isPrefixOf_iff_prefix]

theorem mem_of_subList {n h : List Char} (hs : subList n h = true) :
    ∀ a ∈ n, a ∈ h :=
  fun _ ha => ((subList_iff_isInfix n h).mp hs).subset ha

/-- Unfolding of the single-character removal case of `dropPattern`. -/
theorem dropPattern_single_cons (c x : Char) (rest : List Char) :
    dropPattern [c] (x :: rest) =
      if x = c then dropPattern [c] rest else x :: dropPattern [c] rest := by
  by_cases hx : x = c
  · subst hx
    simp [dropPattern, dropPatternAux, List.isPrefixOf]
  · have hcx : ¬ (c = x) := fun h => hx h.symm
    simp [dropPattern, dropPatternAux, List.isPrefixOf, hx, hcx]

/-- Removing every occurrence of a character leaves none behind. -/
theorem not_mem_dropPattern_single (c : Char) (l : List Char) :
    c ∉ dropPattern [c] l := by
  induction l with
  | nil =>
      simp [dropPattern, dropPatternAux]
  | cons x rest ih =>
      rw [dropPattern_single_cons]
      by_cases hx : x = c
      · simpa [hx] using ih
      · rw [if_neg hx]
        simp only [List.mem_cons]
        rintro (hcx | hmem)
        · exact hx hcx.symm
        · exact ih hmem

/-- The defender's notification-header containment test is unsatisfiable: the
needle `"| 通知场景 | 通知内容 |"` contains ASCII spaces, while the haystack
`t.replace(" ", "")` contains none. -/
theorem notification_header_never_matches (t : String) :
    strIn "| 通知场景 | 通知内容 |" (pyReplaceDrop t " ") = false := by
  by_contra hne
  have hs : subList "| 通知场景 | 通知内容 |".data (dropPattern " ".data t.data) = true := by
    revert hne
    unfold strIn pyReplaceDrop
    cases hb : subList "| 通知场景 | 通知内容 |".data (dropPattern " ".data t.data) <;> simp [hb]
  have hmem : (' ' : Char) ∈ dropPattern [' '] t.data := by
    have := mem_of_subList hs (' ' : Char) (by decide)
    simpa using this
  exact not_mem_dropPattern_single ' ' t.data hmem

/-- An occurrence of a non-whitespace pattern survives `dropWhile`. -/
theorem infix_dropWhile_of_not_ws {n l : List Char}
    (hn : n ≠ []) (hws : ∀ c ∈ n, ¬ c.isWhitespace)
    (hinf : n <:+: l) : n <:+: l.dropWhile Char.isWhitespace := by
  induction l with
  | nil => simpa [List.infix_nil] using hinf
  | cons x t ih =>
      by_cases hx : Char.isWhitespace x
      · rw [List.dropWhile_cons_of_pos hx]
        rcases List.infix_cons_iff.mp hinf with hpre | hinf'
        · exfalso
          rcases List.exists_cons_of_ne_nil hn with ⟨a, n', rfl⟩
          rcases hpre with ⟨s, hs⟩
          rw [List.cons_append] at hs
          injection hs with h1 _
          exact hws a (by simp) (h1 ▸ hx)
        · exact ih hinf'
      · rwa [List.dropWhile_cons_of_neg hx]

/-- An occurrence of a non-empty, fully non-whitespace pattern survives
Python's `strip()`. -/
theorem infix_stripList {n l : List Char}
    (hn : n ≠ []) (hws : ∀ c ∈ n, ¬ c.isWhitespace)
    (hinf : n <:+: l) : n <:+: stripList l := by
  unfold stripList
  have h1 : n <:+: l.dropWhile Char.isWhitespace :=
    infix_dropWhile_of_not_ws hn hws hinf
  have h2 : n.reverse <:+: (l.dropWhile Char.isWhitespace).reverse :=
    List.reverse_infix.mpr h1
  have hwsr : ∀ c ∈ n.reverse, ¬ c.isWhitespace := by
    intro c hc
    exact hws c (List.mem_reverse.mp hc)
  have hnr : n.reverse ≠ [] := by
    simpa using hn
  have h3 := infix_dropWhile_of_not_ws hnr hwsr h2
  exact List.reverse_infix.mp (by simpa using h3)

/-- `strIn` is preserved by `pyStrip` for non-whitespace needles. -/
theorem strIn_pyStrip {k s : String}
    (hk : k.data ≠ []) (hws : ∀ c ∈ k.data, ¬ c.isWhitespace)
    (h : strIn k s = true) : strIn k (pyStrip s) = true := by
  unfold strIn at h ⊢
  unfold pyStrip
  exact (subList_iff_isInfix _ _).mpr
    (infix_stripList hk hws ((subList_iff_isInfix _ _).mp h))

/-! ### Sample drafts for concrete evaluation -/

/-- A draft populating all fourteen required fields with non-placeholder,
correctly formatted content; notification tables and the change overview are
the two parameters. -/
def sampleCompleteDraft (tableVal overview : String) : PyVal :=
  .obj [
    ("business_requirement", .obj [
       ("demand_source", .str "需求来源说明"),
       ("product_statement", .str "产品化表述内容")]),
    ("system_current", .obj [
       ("business_rules", .str "当前业务规则说明"),
       ("frontend_current", .obj [("description", .str "前端现状描述")]),
       ("backend_current", .obj [
          ("description", .str "后端现状描述"),
          ("flow_mermaid", .str "```mermaid\ngraph TD\n```")]),
       ("notification_current", .obj [
          ("description", .str "通知现状描述"),
          ("table_markdown", .str tableVal)])]),
    ("system_changes", .obj [
       ("change_overview", .str overview),
       ("frontend_changes", .obj [("description", .str "前端改动说明")]),
       ("backend_changes", .obj [
          ("overview", .str "后端改动概述"),
          ("flow_mermaid", .str "```mermaid\ngraph TD\n```")]),
       ("notification_changes", .obj [
          ("description", .str "通知改动说明"),
          ("table_markdown", .str tableVal)])])]

/-- Fourteen correctly populated fields, notification tables carrying exactly
the required two-column header. -/
def headerTablesDraft : PyVal :=
  sampleCompleteDraft "| 通知场景 | 通知内容 |\n| 下单成功 | 下单成功通知 |"
    "本次改动涉及前端展示逻辑与确认流程的总体调整说明"

/-- Fourteen correctly populated fields, notification tables equal to the
accepted none literal, change overview below the loop-prevention threshold. -/
def noneTablesDraft : PyVal :=
  sampleCompleteDraft "无" "改动总览简述"

/-- C2: for drafts whose fourteen required paths hold non-placeholder,
correctly formatted content, `check_draft` is claimed to return
`is_complete = true` with zero questions.  The code flags any header-bearing
notification table `invalid_format` (its containment test strips the spaces
of the haystack but not of the needle, so it never succeeds), and a complete
draft reaching the final assembly with no questions collected still receives
the catch-all question: both contradict the spec and the checker's own
question text. -/
theorem C2_completeness_round_trip_code_bug :
    (∀ t : String, strIn "| 通知场景 | 通知内容 |" (pyReplaceDrop t " ") = false) ∧
    (check_draft headerTablesDraft).map
        (fun r => (r.is_complete, r.missing_fields.map fun m => (m.field_path, m.reason))) =
      .ok (false,
        [("system_current.notification_current.table_markdown", "invalid_format"),
         ("system_changes.notification_changes.table_markdown", "invalid_format")]) ∧
    (check_draft noneTablesDraft).map (fun r => (r.is_complete, r.questions)) =
      .ok (true, [CATCH_ALL_QUESTION]) :=
  ⟨notification_header_never_matches, by rfl, by rfl⟩

/-! ### Except inversion helper -/

theorem except_bind_ok {ε α β : Type} {e : Except ε α} {f : α → Except ε β} {b : β} :
    (e >>= f) = .ok b ↔ ∃ a, e = .ok a ∧ f a = .ok b := by
  cases e <;> simp [Bind.bind, Except.bind]

/-! ### C5 — full-redo keywords take precedence in the fallback classifier -/

/-- C5: for every feedback text containing one of the full-redo keywords, the
deterministic fallback of the Feedback Classifier returns
`request_redo_full` with scope `full`, regardless of other content, because
the full-redo family is the first branch tested. -/
theorem C5_full_redo_priority (draft : PyVal) (text : String)
    (hkw : strInAny FULL_REDO_KEYWORDS text = true) :
    parse_feedback_fallback draft text =
      .ok { status := .str "request_redo_full", user_message := text,
            suggested_draft_updates := .null, clarification_question := .null,
            redo_scope := .str "full" } := by
  have hside : ∀ k ∈ FULL_REDO_KEYWORDS, k.data ≠ [] ∧ ∀ c ∈ k.data, ¬ c.isWhitespace := by
    decide
  have hstrip : strInAny FULL_REDO_KEYWORDS (pyStrip text) = true := by
    rcases List.any_eq_true.mp hkw with ⟨k, hkmem, hkin⟩
    exact List.any_eq_true.mpr
      ⟨k, hkmem, strIn_pyStrip (hside k hkmem).1 (hside k hkmem).2 hkin⟩
  simp [parse_feedback_fallback, hstrip]

theorem C5_full_redo_priority_witness :
    parse_feedback_fallback (.obj []) "内容还有不少问题，请从头再来，重点修正改动总览" =
      .ok { status := .str "request_redo_full",
            user_message := "内容还有不少问题，请从头再来，重点修正改动总览",
            suggested_draft_updates := .null, clarification_question := .null,
            redo_scope := .str "full" } :=
  C5_full_redo_priority (.obj []) "内容还有不少问题，请从头再来，重点修正改动总览" (by decide)

/-! ### C9 — `query_kb` stdout parsing -/

theorem kbStdoutLoop_true (l : List String) :
    kbStdoutLoop true l =
      ([], (l.map pyStrip).filter fun s => !(s == KB_IMAGE_MARKER) && !(s == "")) := by
  induction l with
  | nil => rfl
  | cons ln rest ih =>
      by_cases hm : pyStrip ln = KB_IMAGE_MARKER
      · simp [kbStdoutLoop, hm, ih]
      · by_cases hb : pyStrip ln = ""
        · simp [kbStdoutLoop, hm, hb, ih]
        · simp [kbStdoutLoop, hm, hb, ih]

theorem kbStdoutLoop_false (l : List String) :
    kbStdoutLoop false l =
      (l.takeWhile fun ln => !(pyStrip ln == KB_IMAGE_MARKER),
       ((((l.dropWhile fun ln => !(pyStrip ln == KB_IMAGE_MARKER)).drop 1).map
          pyStrip).filter fun s => !(s == KB_IMAGE_MARKER) && !(s == ""))) := by
  induction l with
  | nil => rfl
  | cons ln rest ih =>
      by_cases hm : pyStrip ln = KB_IMAGE_MARKER
      · simp [kbStdoutLoop, hm, kbStdoutLoop_true, List.takeWhile_cons,
          List.dropWhile_cons]
      · simp [kbStdoutLoop, hm, ih, List.takeWhile_cons, List.dropWhile_cons]

/-- The images part of C9, read off the claim's words: "the stripped
non-blank lines that come after that marker, one path per line". -/
def imagesAfterMarkerPerClaim (stdout : String) : List String :=
  ((((pySplitlines stdout).dropWhile fun ln => !(pyStrip ln == KB_IMAGE_MARKER)).drop
      1).map pyStrip).filter fun s => !(s == "")

/-- C9 (amended): the markdown answer is exactly the stripped join of the
lines strictly before the first marker line; the image paths are the
stripped non-blank lines after that marker **that are not themselves equal
to the marker** — a repeated literal marker line is skipped, not returned as
a path. -/
theorem C9_kb_stdout_parsing (stdout : String) :
    query_kb_parse_stdout stdout =
      (pyStrip (pyJoin "\n"
         ((pySplitlines stdout).takeWhile fun ln => !(pyStrip ln == KB_IMAGE_MARKER))),
       ((((pySplitlines stdout).dropWhile fun ln =>
            !(pyStrip ln == KB_IMAGE_MARKER)).drop 1).map pyStrip).filter
         fun s => !(s == KB_IMAGE_MARKER) && !(s == "")) := by
  unfold query_kb_parse_stdout
  rw [kbStdoutLoop_false]

/-- C9 counterexample: on a stdout whose image block contains a second
literal marker line, the returned image paths differ from the claim's
"all stripped non-blank lines after the first marker". -/
theorem C9_kb_stdout_parsing_counterexample :
    (query_kb_parse_stdout "ans\n[图片路径]\n/a.png\n[图片路径]\n/b.png").2 ≠
      imagesAfterMarkerPerClaim "ans\n[图片路径]\n/a.png\n[图片路径]\n/b.png" := by
  decide

/-! ### C10 — placeholder detection in `check_draft` -/

theorem mermaidEntry_reason {x : MissingField} {v : Option PyVal} {path q : String}
    (hx : x ∈ mermaidEntry v path q) : x.reason = "invalid_format" := by
  unfold mermaidEntry at hx
  split at hx
  · split at hx
    · simp at hx
      subst hx
      rfl
    · simp at hx
  · simp at hx

theorem tableEntry_reason {x : MissingField} {v : Option PyVal} {path q : String}
    (hx : x ∈ tableEntry v path q) : x.reason = "invalid_format" := by
  unfold tableEntry at hx
  split at hx
  · split at hx
    · simp at hx
      subst hx
      rfl
    · simp at hx
  · simp at hx

theorem formatChecks_reason {draft : PyVal} {fmt : List MissingField}
    (h : formatChecks draft = .ok fmt) : ∀ x ∈ fmt, x.reason = "invalid_format" := by
  unfold formatChecks at h
  rw [except_bind_ok] at h
  obtain ⟨a1, _, h⟩ := h
  rw [except_bind_ok] at h
  obtain ⟨a2, _, h⟩ := h
  rw [except_bind_ok] at h
  obtain ⟨a3, _, h⟩ := h
  rw [except_bind_ok] at h
  obtain ⟨a4, _, h⟩ := h
  simp only [pure, Except.pure, Except.ok.injEq] at h
  subst h
  intro x hx
  rcases List.mem_append.mp hx with hx | hx4
  · rcases List.mem_append.mp hx with hx | hx3
    · rcases List.mem_append.mp hx with hx1 | hx2
      · exact mermaidEntry_reason hx1
      · exact mermaidEntry_reason hx2
    · exact tableEntry_reason hx3
  · exact tableEntry_reason hx4

theorem requiredEntry_path {draft : PyVal} {pq : String × String}
    {es : List MissingField} (h : requiredEntry draft pq = .ok es) :
    ∀ x ∈ es, x.field_path = pq.1 := by
  unfold requiredEntry at h
  rw [except_bind_ok] at h
  obtain ⟨val, _, h⟩ := h
  intro x hx
  match val with
  | none =>
      simp only [pure, Except.pure, Except.ok.injEq] at h
      subst h
      simp at hx
      subst hx
      rfl
  | some v =>
      rw [except_bind_ok] at h
      obtain ⟨b, _, h⟩ := h
      simp only [pure, Except.pure, Except.ok.injEq] at h
      subst h
      by_cases hb : b = true
      · subst hb
        simp at hx
        subst hx
        rfl
      · simp [hb] at hx

theorem requiredEntry_str {draft : PyVal} {pq : String × String} {s : String}
    (hval : getPath draft pq.1 = .ok (some (.str s))) :
    requiredEntry draft pq =
      .ok (if strIn PLACEHOLDER_TOKEN s then [mkMissing pq.1 pq.2 "placeholder"]
           else []) := by
  unfold requiredEntry
  rw [hval]
  simp [Bind.bind, Except.bind, pyInStr, pure, Except.pure]

theorem requiredPass_mem {draft : PyVal} {l : List (String × String)}
    {ms : List MissingField} (h : requiredPass draft l = .ok ms) :
    ∀ x, x ∈ ms ↔ ∃ pq ∈ l, ∃ es, requiredEntry draft pq = .ok es ∧ x ∈ es := by
  induction l generalizing ms with
  | nil =>
      unfold requiredPass at h
      simp only [Except.ok.injEq] at h
      subst h
      simp
  | cons pq rest ih =>
      unfold requiredPass at h
      rw [except_bind_ok] at h
      obtain ⟨e, he, h⟩ := h
      rw [except_bind_ok] at h
      obtain ⟨r, hr, h⟩ := h
      simp only [pure, Except.pure, Except.ok.injEq] at h
      subst h
      intro x
      constructor
      · intro hx
        rcases List.mem_append.mp hx with hx | hx
        · exact ⟨pq, by simp, e, he, hx⟩
        · rcases (ih hr x).mp hx with ⟨pq2, hmem, es, hes, hxes⟩
          exact ⟨pq2, by simp [hmem], es, hes, hxes⟩
      · rintro ⟨pq2, hmem, es, hes, hxes⟩
        rcases List.mem_cons.mp hmem with rfl | hmem2
        · exact List.mem_append.mpr (Or.inl (by rw [he] at hes; cases hes; exact hxes))
        · exact List.mem_append.mpr (Or.inr ((ih hr x).mpr ⟨pq2, hmem2, es, hes, hxes⟩))

theorem check_draft_ok {draft : PyVal} {res : DefenderResult}
    (h : check_draft draft = .ok res) :
    ∃ m1 fmt cond, requiredPass draft REQUIRED_PATHS = .ok m1 ∧
      formatChecks draft = .ok fmt ∧ loopPreventCond draft = .ok cond ∧
      res = checkAssemble (m1 ++ fmt) cond := by
  unfold check_draft at h
  rw [except_bind_ok] at h
  obtain ⟨m1, h1, h⟩ := h
  rw [except_bind_ok] at h
  obtain ⟨fmt, h2, h⟩ := h
  rw [except_bind_ok] at h
  obtain ⟨cond, h3, h⟩ := h
  simp only [pure, Except.pure, Except.ok.injEq] at h
  exact ⟨m1, fmt, cond, h1, h2, h3, h.symm⟩

theorem checkAssemble_missing_subset (missing : List MissingField) (cond : Bool) :
    ∀ x ∈ (checkAssemble missing cond).missing_fields, x ∈ missing := by
  intro x hx
  unfold checkAssemble at hx
  by_cases hc : cond = true
  · simp only [hc, if_true] at hx
    split at hx
    · simp [assembleResult] at hx
    · simp only [assembleResult] at hx
      exact List.mem_of_mem_filter hx
  · simp only [Bool.not_eq_true] at hc
    simp only [hc] at hx
    simp only [assembleResult] at hx
    exact hx

theorem checkAssemble_mem_of_kept {missing : List MissingField} {x : MissingField}
    (hx : x ∈ missing)
    (hkeep : (!(strIn "change_overview" x.field_path) &&
      !(strIn "business_changes" x.field_path)) = true) (cond : Bool) :
    x ∈ (checkAssemble missing cond).missing_fields := by
  unfold checkAssemble
  by_cases hc : cond = true
  · simp only [hc, if_true]
    have hmemf : x ∈ missing.filter fun m =>
        !(strIn "change_overview" m.field_path) && !(strIn "business_changes" m.field_path) :=
      List.mem_filter.mpr ⟨hx, hkeep⟩
    split
    · next hempty =>
        rw [List.isEmpty_iff] at hempty
        rw [hempty] at hmemf
        simp at hmemf
    · simpa [assembleResult] using hmemf
  · simp only [Bool.not_eq_true] at hc
    simp only [hc, Bool.false_eq_true, if_false]
    simpa [assembleResult] using hx

/-- C10 (amended): for a required path other than
`system_changes.change_overview` resolving to a string value, `check_draft`
flags it `placeholder` exactly when the value contains the two-character
token `（待` anywhere; in particular the rule-based filler strings such as
`（知识库暂无命中，待补充前端现状）` do not contain the token and are
accepted.  (For `system_changes.change_overview` itself the loop-prevention
rule can drop the flag, see the counterexample.) -/
theorem C10_placeholder_token_detection (draft : PyVal) (res : DefenderResult)
    (pq : String × String) (s : String)
    (hok : check_draft draft = .ok res)
    (hmem : pq ∈ REQUIRED_PATHS)
    (hne : pq.1 ≠ "system_changes.change_overview")
    (hval : getPath draft pq.1 = .ok (some (.str s))) :
    ((∃ m ∈ res.missing_fields, m.field_path = pq.1 ∧ m.reason = "placeholder") ↔
      strIn PLACEHOLDER_TOKEN s = true) ∧
    strIn PLACEHOLDER_TOKEN "（知识库暂无命中，待补充前端现状）" = false := by
  obtain ⟨m1, fmt, cond, h1, h2, h3, hres⟩ := check_draft_ok hok
  have hnodup : (REQUIRED_PATHS.map Prod.fst).Nodup := by decide
  have hfilterFacts : ∀ p ∈ REQUIRED_PATHS, p.1 ≠ "system_changes.change_overview" →
      strIn "change_overview" p.1 = false ∧ strIn "business_changes" p.1 = false := by
    decide
  refine ⟨⟨?_, ?_⟩, by decide⟩
  · rintro ⟨m, hmres, hpath, hreason⟩
    have hmm : m ∈ m1 ++ fmt := by
      rw [hres] at hmres
      exact checkAssemble_missing_subset _ _ m hmres
    rcases List.mem_append.mp hmm with hm1 | hfmt
    · rcases (requiredPass_mem h1 m).mp hm1 with ⟨pq2, hmem2, es, hes, hmes⟩
      have hpath2 : m.field_path = pq2.1 := requiredEntry_path hes m hmes
      have hpqeq : pq2 = pq := by
        apply List.inj_on_of_nodup_map hnodup hmem2 hmem
        rw [← hpath2, hpath]
      subst hpqeq
      rw [requiredEntry_str hval] at hes
      by_cases hin : strIn PLACEHOLDER_TOKEN s = true
      · exact hin
      · exfalso
        simp only [Bool.not_eq_true] at hin
        rw [hin] at hes
        simp only [Bool.false_eq_true, if_false, Except.ok.injEq] at hes
        rw [← hes] at hmes
        simp at hmes
    · have hfr := formatChecks_reason h2 m hfmt
      rw [hreason] at hfr
      simp at hfr
  · intro hin
    have hre := requiredEntry_str hval
    rw [hin, if_pos rfl] at hre
    have hm1 : mkMissing pq.1 pq.2 "placeholder" ∈ m1 :=
      (requiredPass_mem h1 _).mpr ⟨pq, hmem, _, hre, by simp⟩
    have hff := hfilterFacts pq hmem hne
    have hkeep : (!(strIn "change_overview" (mkMissing pq.1 pq.2 "placeholder").field_path) &&
        !(strIn "business_changes" (mkMissing pq.1 pq.2 "placeholder").field_path)) = true := by
      simp [mkMissing, hff.1, hff.2]
    refine ⟨mkMissing pq.1 pq.2 "placeholder", ?_, rfl, rfl⟩
    rw [hres]
    exact checkAssemble_mem_of_kept (List.mem_append.mpr (Or.inl hm1)) hkeep cond

/-- Complete draft whose change overview still carries a trailing
`（待补充）` marker alongside more than twenty characters of real content. -/
def overviewTokenDraft : PyVal :=
  sampleCompleteDraft "无" "本次改动覆盖前端展示与后端流程的整体说明（待补充）"

/-- C10 counterexample: `system_changes.change_overview` contains the
placeholder token, yet `check_draft` reports the draft complete with no
missing fields — the loop-prevention rule drops the flag, so "flagged
exactly when the value contains `（待`" fails at this required path. -/
theorem C10_placeholder_token_detection_counterexample :
    strIn PLACEHOLDER_TOKEN "本次改动覆盖前端展示与后端流程的整体说明（待补充）" = true ∧
    getPath overviewTokenDraft "system_changes.change_overview" =
      .ok (some (.str "本次改动覆盖前端展示与后端流程的整体说明（待补充）")) ∧
    check_draft overviewTokenDraft =
      .ok { is_complete := true, questions := [], missing_fields := [] } :=
  ⟨by decide, by rfl, by rfl⟩

/-- Complete draft whose frontend description is the rule-based fallback's
filler string (which does not contain the `（待` token). -/
def fillerFrontendDraft : PyVal :=
  .obj [
    ("business_requirement", .obj [
       ("demand_source", .str "需求来源说明"),
       ("product_statement", .str "产品化表述内容")]),
    ("system_current", .obj [
       ("business_rules", .str "当前业务规则说明"),
       ("frontend_current", .obj [
          ("description", .str "（知识库暂无命中，待补充前端现状）")]),
       ("backend_current", .obj [
          ("description", .str "后端现状描述"),
          ("flow_mermaid", .str "```mermaid\ngraph TD\n```")]),
       ("notification_current", .obj [
          ("description", .str "通知现状描述"),
          ("table_markdown", .str "无")])]),
    ("system_changes", .obj [
       ("change_overview", .str "本次改动涉及前端展示逻辑与确认流程的总体调整说明"),
       ("frontend_changes", .obj [("description", .str "前端改动说明")]),
       ("backend_changes", .obj [
          ("overview", .str "后端改动概述"),
          ("flow_mermaid", .str "```mermaid\ngraph TD\n```")]),
       ("notification_changes", .obj [
          ("description", .str "通知改动说明"),
          ("table_markdown", .str "无")])])]

theorem C10_placeholder_token_detection_witness :
    strIn PLACEHOLDER_TOKEN "（知识库暂无命中，待补充前端现状）" = false ∧
    ¬ (∃ m ∈ (DefenderResult.mk true [] []).missing_fields,
        m.field_path = "system_current.frontend_current.description" ∧
        m.reason = "placeholder") := by
  have h := C10_placeholder_token_detection fillerFrontendDraft
    (DefenderResult.mk true [] [])
    ("system_current.frontend_current.description",
     "请补充前端现状（页面、交互、数据展示）。")
    "（知识库暂无命中，待补充前端现状）"
    (by rfl) (by decide) (by decide) (by rfl)
  exact ⟨h.2, fun hex => absurd (h.1.mp hex) (by decide)⟩

/-! ### C3 — DEFEND-round merge -/

theorem lookupKey_setKey_self (fs : List (String × PyVal)) (k : String) (v : PyVal) :
    PyVal.lookupKey (PyVal.setKey fs k v) k = some v := by
  induction fs with
  | nil => simp [PyVal.setKey, PyVal.lookupKey]
  | cons kv rest ih =>
      by_cases hk : kv.1 = k
      · simp [PyVal.setKey, PyVal.lookupKey, hk]
      · simp [PyVal.setKey, PyVal.lookupKey, hk, ih]

theorem lookupKey_setKey_ne (fs : List (String × PyVal)) (k k2 : String) (v : PyVal)
    (h : k2 ≠ k) :
    PyVal.lookupKey (PyVal.setKey fs k v) k2 = PyVal.lookupKey fs k2 := by
  have hne : ¬ (k = k2) := fun hh => h hh.symm
  induction fs with
  | nil => simp [PyVal.setKey, PyVal.lookupKey, hne]
  | cons kv rest ih =>
      by_cases hk : kv.1 = k
      · simp [PyVal.setKey, PyVal.lookupKey, hk, hne]
      · by_cases hk2 : kv.1 = k2
        · simp [PyVal.setKey, PyVal.lookupKey, hk, hk2, h]
        · simp [PyVal.setKey, PyVal.lookupKey, hk, hk2, ih]

theorem sessionsFind_put (m : SessionMap) (sid : String) (sess : OrchestratorSession) :
    sessionsFind (sessionsPut m sid sess) sid = some sess := by
  induction m with
  | nil => simp [sessionsPut, sessionsFind, List.find?]
  | cons e rest ih =>
      by_cases he : e.1 = sid
      · simp [sessionsPut, sessionsFind, List.find?, he]
      · simpa [sessionsPut, sessionsFind, List.find?, he] using ih

theorem pyOrElse_str_empty (co : String) : pyOrElse (.str co) (.str "") = .str co := by
  by_cases h : co = "" <;> simp [pyOrElse, PyVal.truthy, h]

theorem setKey_isEmpty (fs : List (String × PyVal)) (k : String) (v : PyVal) :
    (PyVal.setKey fs k v).isEmpty = false := by
  cases fs with
  | nil => simp [PyVal.setKey]
  | cons kv rest =>
      by_cases hk : kv.1 = k <;> simp [PyVal.setKey, hk]

/-- C3 (amended, see counterexample): `apply_defend_answers` replaces the
change overview with the answer exactly when it contains the token `（待`
anywhere (not only when it holds nothing but a placeholder), appends under
the `【补充说明】` separator when it has token-free content, and appends the
`source=defend` clarification entry exactly when the session has recorded
defend questions. -/
theorem C3_defend_merge (m : SessionMap) (sid ans : String)
    (sess : OrchestratorSession) (dfs cfs bfs lfs : List (String × PyVal))
    (its : List PyVal) (co : String)
    (hfind : sessionsFind m sid = some sess)
    (_hstate : sess.state = "DEFENDING")
    (hdraft : sess.draft_struct = .obj dfs)
    (hch : PyVal.lookupKey dfs "system_changes" = some (.obj cfs))
    (hco : PyVal.lookupKey cfs "change_overview" = some (.str co))
    (hbr : PyVal.lookupKey dfs "business_requirement" = some (.obj bfs))
    (hcl : PyVal.lookupKey bfs "clarification_log" = some (.obj lfs))
    (hitems : PyVal.lookupKey lfs "items" = some (.list its)) :
    ∃ sess2 m2, apply_defend_answers m sid ans = .ok (sess2, m2) ∧
      m2 = sessionsPut m sid sess2 ∧ sess2.state = "DEFENDING" ∧
      getPath sess2.draft_struct "system_changes.change_overview" =
        .ok (some (.str (if strIn "（待" co then ans
          else if co ≠ "" then co ++ SUPPLEMENT_SEPARATOR ++ ans else ans))) ∧
      getPath sess2.draft_struct "business_requirement.clarification_log.items" =
        .ok (some (.list (if sess.last_defend_questions.isEmpty then its
          else its ++ [.obj [("question", .str (pyJoin "\n" sess.last_defend_questions)),
                             ("answer", .str ans), ("source", .str "defend")]]))) := by
  have horig : pyOrElse (.str co) (.str "") = .str co := pyOrElse_str_empty co
  have hr1 : ∀ fs v, PyVal.lookupKey (PyVal.setKey fs "system_changes" v) "business_requirement" =
      PyVal.lookupKey fs "business_requirement" :=
    fun fs v => lookupKey_setKey_ne fs _ _ v (by decide)
  have hr2 : ∀ fs v, PyVal.lookupKey (PyVal.setKey fs "business_requirement" v) "system_changes" =
      PyVal.lookupKey fs "system_changes" :=
    fun fs v => lookupKey_setKey_ne fs _ _ v (by decide)
  unfold apply_defend_answers
  rw [hfind]
  by_cases hin : strIn "（待" co = true
  · simp only [hdraft, PyVal.setdefault, hch, Bind.bind, Except.bind, pyGetD,
      PyVal.getRaw, hco, Option.getD, horig, pyInStr, PyVal.setItem, pure, Except.pure,
      Except.map, hin, if_true, hr1, hbr, hcl, hitems]
    refine ⟨_, _, rfl, rfl, rfl, ?_, ?_⟩
    · simp [getPath, pySplitChar, getPathAux, PyVal.getAttr, PyVal.getRaw, PyVal.truthy,
          Bind.bind, Except.bind, pure, Except.pure,
        setKey_isEmpty, hr2, lookupKey_setKey_self, hin]
    · by_cases he : sess.last_defend_questions.isEmpty <;>
        simp [getPath, pySplitChar, getPathAux, PyVal.getAttr, PyVal.getRaw, PyVal.truthy,
          Bind.bind, Except.bind, pure, Except.pure,
          setKey_isEmpty, hr2, lookupKey_setKey_self, he]
  · simp only [hdraft, PyVal.setdefault, hch, Bind.bind, Except.bind, pyGetD,
      PyVal.getRaw, hco, Option.getD, horig, pyInStr, PyVal.setItem, pure, Except.pure,
      Except.map, hin, if_false, Bool.false_eq_true, hr1, hbr, hcl, hitems]
    by_cases hco0 : co = ""
    · rw [if_neg (by simp [PyVal.truthy, hco0])]
      refine ⟨_, _, rfl, rfl, rfl, ?_, ?_⟩
      · simp [getPath, pySplitChar, getPathAux, PyVal.getAttr, PyVal.getRaw, PyVal.truthy,
          Bind.bind, Except.bind, pure, Except.pure,
          setKey_isEmpty, hr2, lookupKey_setKey_self, hin, hco0]
      · by_cases he : sess.last_defend_questions.isEmpty <;>
          simp [getPath, pySplitChar, getPathAux, PyVal.getAttr, PyVal.getRaw, PyVal.truthy,
          Bind.bind, Except.bind, pure, Except.pure,
            setKey_isEmpty, hr2, lookupKey_setKey_self, he]
    · rw [if_pos (by simp [PyVal.truthy, hco0])]
      refine ⟨_, _, rfl, rfl, rfl, ?_, ?_⟩
      · simp [getPath, pySplitChar, getPathAux, PyVal.getAttr, PyVal.getRaw, PyVal.truthy,
          Bind.bind, Except.bind, pure, Except.pure,
          setKey_isEmpty, hr2, lookupKey_setKey_self, hin, hco0]
      · by_cases he : sess.last_defend_questions.isEmpty <;>
          simp [getPath, pySplitChar, getPathAux, PyVal.getAttr, PyVal.getRaw, PyVal.truthy,
          Bind.bind, Except.bind, pure, Except.pure,
            setKey_isEmpty, hr2, lookupKey_setKey_self, he]

/-- DEFENDING session whose change overview holds real content alongside a
trailing placeholder token. -/
def c3Session : OrchestratorSession :=
  { session_id := "s3", user_request := "需求", state := "DEFENDING",
    open_questions := [], user_answers := [], knowledge_markdown := "",
    kb_image_urls := [],
    draft_struct := .obj [
      ("system_changes", .obj [("change_overview", .str "已实现功能列表（待补充）")]),
      ("business_requirement", .obj [("clarification_log", .obj [("items", .list [])])])],
    last_defend_questions := ["请补充改动总览"],
    requirement_structured := .obj [] }

/-- C3 counterexample: the overview holds more than a bare placeholder, yet
the answer wholly replaces it (the code replaces whenever the token appears
anywhere), so the existing content is not preserved. -/
theorem C3_defend_merge_counterexample :
    strIn "（待" "已实现功能列表（待补充）" = true ∧
    "已实现功能列表（待补充）" ≠ "（待补充）" ∧
    (match apply_defend_answers [("s3", c3Session)] "s3" "补充的答复" with
     | .ok (s, _) => getPath s.draft_struct "system_changes.change_overview"
     | .error e => .error e) = .ok (some (.str "补充的答复")) :=
  ⟨by decide, by decide, by rfl⟩

/-- DEFENDING session with token-free overview content and one recorded
defend question. -/
def c3wSession : OrchestratorSession :=
  { session_id := "s3w", user_request := "需求", state := "DEFENDING",
    open_questions := [], user_answers := [], knowledge_markdown := "",
    kb_image_urls := [],
    draft_struct := .obj [
      ("system_changes", .obj [("change_overview", .str "本次改动说明内容整体完善")]),
      ("business_requirement", .obj [("clarification_log", .obj [("items", .list [])])])],
    last_defend_questions := ["请补充改动总览"],
    requirement_structured := .obj [] }

theorem C3_defend_merge_witness :
    ∃ sess2 m2, apply_defend_answers [("s3w", c3wSession)] "s3w" "补充答复" = .ok (sess2, m2) ∧
      m2 = sessionsPut [("s3w", c3wSession)] "s3w" sess2 ∧ sess2.state = "DEFENDING" ∧
      getPath sess2.draft_struct "system_changes.change_overview" =
        .ok (some (.str (if strIn "（待" "本次改动说明内容整体完善" then "补充答复"
          else if "本次改动说明内容整体完善" ≠ "" then
            "本次改动说明内容整体完善" ++ SUPPLEMENT_SEPARATOR ++ "补充答复"
          else "补充答复"))) ∧
      getPath sess2.draft_struct "business_requirement.clarification_log.items" =
        .ok (some (.list (if c3wSession.last_defend_questions.isEmpty then []
          else [.obj [("question", .str (pyJoin "\n" c3wSession.last_defend_questions)),
                      ("answer", .str "补充答复"), ("source", .str "defend")]]))) :=
  C3_defend_merge [("s3w", c3wSession)] "s3w" "补充答复" c3wSession _ _ _ _ [] _
    (by rfl) (by rfl) (by rfl) (by rfl) (by rfl) (by rfl) (by rfl) (by rfl)

/-! ### C6 — `revised` merge touches only string-valued business-requirement keys -/

/-- Pure form of one merge step (the monadic fold applies `setKey` for
string values and skips the rest). -/
def revisedStep (b : List (String × PyVal)) (kv : String × PyVal) :
    List (String × PyVal) :=
  match kv.2 with
  | .str _ => PyVal.setKey b kv.1 kv.2
  | _ => b

theorem foldlM_setItem_obj (items : List (String × PyVal))
    (bfs : List (String × PyVal)) :
    (items.foldlM (fun b kv =>
      match kv.2 with
      | PyVal.str _ => PyVal.setItem b kv.1 kv.2
      | _ => pure b) (PyVal.obj bfs)) =
    Except.ok (ε := PyErr) (.obj (items.foldl revisedStep bfs)) := by
  induction items generalizing bfs with
  | nil => rfl
  | cons kv rest ih =>
      simp only [PyVal.setItem, pure, Except.pure] at ih
      cases hv : kv.2 <;>
        simp [List.foldlM_cons, hv, PyVal.setItem, pure, Except.pure, Bind.bind,
          Except.bind, List.foldl_cons, revisedStep, ih]

theorem foldl_revisedStep_untouched (items : List (String × PyVal))
    (bfs : List (String × PyVal)) (k : String)
    (hk : ∀ s, (k, PyVal.str s) ∉ items) :
    PyVal.lookupKey (items.foldl revisedStep bfs) k = PyVal.lookupKey bfs k := by
  induction items generalizing bfs with
  | nil => rfl
  | cons kv rest ih =>
      rw [List.foldl_cons]
      have hrest : ∀ s, (k, PyVal.str s) ∉ rest := by
        intro s hs
        exact hk s (List.mem_cons_of_mem _ hs)
      rw [ih _ hrest]
      cases hv : kv.2 with
      | str s =>
          have hne : k ≠ kv.1 := by
            intro hkk
            exact hk s (by
              have : kv = (k, PyVal.str s) := by
                cases kv
                simp at hv hkk ⊢
                exact ⟨hkk.symm, hv⟩
              rw [← this]
              exact List.mem_cons_self _ _)
          simp [revisedStep, hv, lookupKey_setKey_ne _ _ _ _ hne]
      | null => simp [revisedStep, hv]
      | int n => simp [revisedStep, hv]
      | bool b => simp [revisedStep, hv]
      | list xs => simp [revisedStep, hv]
      | obj fs => simp [revisedStep, hv]

theorem foldl_revisedStep_applied (items : List (String × PyVal))
    (bfs : List (String × PyVal)) (hnd : (items.map Prod.fst).Nodup)
    (k : String) (s : String) (hmem : (k, PyVal.str s) ∈ items) :
    PyVal.lookupKey (items.foldl revisedStep bfs) k = some (.str s) := by
  induction items generalizing bfs with
  | nil => simp at hmem
  | cons kv rest ih =>
      rw [List.foldl_cons]
      rcases List.mem_cons.mp hmem with heq | hmem2
      · have hknotin : k ∉ rest.map Prod.fst := by
          rw [List.map_cons] at hnd
          have := hnd.not_mem
          rw [← heq] at this
          simpa using this
        have hrest : ∀ s2, (k, PyVal.str s2) ∉ rest := by
          intro s2 hs2
          exact hknotin (List.mem_map_of_mem Prod.fst hs2)
        rw [foldl_revisedStep_untouched rest _ k hrest]
        rw [← heq]
        simp [revisedStep, lookupKey_setKey_self]
      · exact ih _ (by rw [List.map_cons] at hnd; exact hnd.of_cons) hmem2

theorem lookupKey_append_singleton_ne (fs : List (String × PyVal)) (k0 k : String)
    (v : PyVal) (h : k ≠ k0) :
    PyVal.lookupKey (fs ++ [(k0, v)]) k = PyVal.lookupKey fs k := by
  induction fs with
  | nil =>
      simp [PyVal.lookupKey]
      exact fun hh => h hh.symm
  | cons kv rest ih =>
      by_cases hk : kv.1 = k <;> simp [PyVal.lookupKey, hk, ih]

/-- C6: the caller-side merge for `revised` feedback copies exactly the
string-valued keys under the suggested `business_requirement` object into
the draft's `business_requirement`; every other top-level section (in
particular `system_current` and `system_changes`) and every key without a
string-valued suggestion (in particular non-string suggested values) are
left unchanged.  The classifier itself only returns the suggestion — the
merge is this separate caller-side step. -/
theorem C6_revised_merge_frame (dfs ufs bfs gfs : List (String × PyVal))
    (hbr : PyVal.lookupKey dfs "business_requirement" = some (.obj bfs) ∨
      (PyVal.lookupKey dfs "business_requirement" = none ∧ bfs = []))
    (hubr : pyOrElse ((PyVal.lookupKey ufs "business_requirement").getD .null)
      (.obj []) = .obj gfs) :
    ∃ dfs2 bfs2, apply_revised_updates (.obj dfs) (.obj ufs) = .ok (.obj dfs2) ∧
      (∀ k, k ≠ "business_requirement" →
        PyVal.lookupKey dfs2 k = PyVal.lookupKey dfs k) ∧
      PyVal.lookupKey dfs2 "business_requirement" = some (.obj bfs2) ∧
      (∀ k, (∀ s, (k, PyVal.str s) ∉ gfs) →
        PyVal.lookupKey bfs2 k = PyVal.lookupKey bfs k) ∧
      ((gfs.map Prod.fst).Nodup → ∀ k s, (k, PyVal.str s) ∈ gfs →
        PyVal.lookupKey bfs2 k = some (.str s)) := by
  rcases hbr with hbr | ⟨hbr, rfl⟩
  · refine ⟨PyVal.setKey dfs "business_requirement" (.obj (gfs.foldl revisedStep bfs)),
      gfs.foldl revisedStep bfs, ?_, ?_, lookupKey_setKey_self _ _ _,
      fun k hk => foldl_revisedStep_untouched gfs bfs k hk,
      fun hnd k s hmem => foldl_revisedStep_applied gfs bfs hnd k s hmem⟩
    · unfold apply_revised_updates
      simp only [PyVal.setdefault, hbr, Bind.bind, Except.bind, pyGetD,
        PyVal.getRaw, Except.map, hubr, foldlM_setItem_obj]
      simp [PyVal.setItem, pure, Except.pure]
    · intro k hk
      exact lookupKey_setKey_ne _ _ _ _ hk
  · refine ⟨PyVal.setKey (dfs ++ [("business_requirement", .obj [])])
        "business_requirement" (.obj (gfs.foldl revisedStep [])),
      gfs.foldl revisedStep [], ?_, ?_, lookupKey_setKey_self _ _ _,
      fun k hk => foldl_revisedStep_untouched gfs [] k hk,
      fun hnd k s hmem => foldl_revisedStep_applied gfs [] hnd k s hmem⟩
    · unfold apply_revised_updates
      simp only [PyVal.setdefault, hbr, Bind.bind, Except.bind, pyGetD,
        PyVal.getRaw, Except.map, hubr, foldlM_setItem_obj]
      simp [PyVal.setItem, pure, Except.pure]
    · intro k hk
      rw [lookupKey_setKey_ne _ _ _ _ hk, lookupKey_append_singleton_ne _ _ _ _ hk]

/-- Witness for C6 at a concrete draft: the string suggestion for
`demand_source` is applied, the non-string suggestion for `priority` and the
untouched `owner` key are preserved, and `system_current` / `system_changes`
are unchanged. -/
theorem C6_revised_merge_frame_witness :
    ∃ dfs2 bfs2,
      apply_revised_updates
        (.obj [("system_current", .str "现状描述"),
               ("business_requirement",
                .obj [("demand_source", .str "旧来源"), ("owner", .str "产品")]),
               ("system_changes", .str "改动描述")])
        (.obj [("business_requirement",
                .obj [("demand_source", .str "新来源"), ("priority", .int 2)])]) =
        .ok (.obj dfs2) ∧
      (∀ k, k ≠ "business_requirement" →
        PyVal.lookupKey dfs2 k =
          PyVal.lookupKey
            [("system_current", PyVal.str "现状描述"),
             ("business_requirement",
              PyVal.obj [("demand_source", PyVal.str "旧来源"),
                         ("owner", PyVal.str "产品")]),
             ("system_changes", PyVal.str "改动描述")] k) ∧
      PyVal.lookupKey dfs2 "business_requirement" = some (.obj bfs2) ∧
      (∀ k, (∀ s, (k, PyVal.str s) ∉
          [("demand_source", PyVal.str "新来源"), ("priority", PyVal.int 2)]) →
        PyVal.lookupKey bfs2 k =
          PyVal.lookupKey
            [("demand_source", PyVal.str "旧来源"), ("owner", PyVal.str "产品")] k) ∧
      ((([("demand_source", PyVal.str "新来源"),
          ("priority", PyVal.int 2)]).map Prod.fst).Nodup →
        ∀ k s, (k, PyVal.str s) ∈
            [("demand_source", PyVal.str "新来源"), ("priority", PyVal.int 2)] →
          PyVal.lookupKey bfs2 k = some (.str s)) :=
  C6_revised_merge_frame _ _ _ _ (Or.inl (by rfl)) (by rfl)

theorem bind_def {α β : Type} (x : Except PyErr α) (f : α → Except PyErr β) :
    x >>= f = Except.bind x f := rfl

theorem except_bind_ok_eq {α β : Type} (a : α) (f : α → Except PyErr β) :
    Except.bind (.ok a) f = f a := rfl

theorem except_bind_error_eq {α β : Type} (e : PyErr) (f : α → Except PyErr β) :
    Except.bind (.error e) f = .error e := rfl

theorem ite_ok {α : Type} (c : Prop) [Decidable c] (a b : α) :
    (if c then (Except.ok a : Except PyErr α) else .ok b) = .ok (if c then a else b) := by
  split <;> rfl

theorem getAttr_obj (fs : List (String × PyVal)) (k : String) :
    PyVal.getAttr (.obj fs) k = .ok (if fs.isEmpty then none else PyVal.lookupKey fs k) := by
  cases fs <;> rfl

theorem getAttr_null (k : String) : PyVal.getAttr .null k = .ok none := rfl

theorem objOrFalsy_elim (v : PyVal) (h : objOrFalsy v = true) :
    ∃ fs, pyOrElse v (.obj []) = .obj fs := by
  unfold objOrFalsy at h
  cases hv : pyOrElse v (.obj []) <;> rw [hv] at h <;> simp [isObjPred] at h
  exact ⟨_, rfl⟩

theorem safeGet_eq (v : PyVal) (fs : List (String × PyVal)) (k : String)
    (h : pyOrElse v (.obj []) = .obj fs) :
    safeGet v k = (PyVal.lookupKey fs k).getD .null := by
  simp [safeGet, h]

theorem strObjOrNull_elim (v : PyVal) (h : strObjOrNull v = true) :
    (∃ s, v = .str s) ∨ (∃ fs, v = .obj fs) ∨ v = .null := by
  cases v <;> simp_all [strObjOrNull]

theorem iterOrEmpty_ok (v : PyVal) (h : iterOrFalsy v = true) :
    ∃ l, pyIterOrEmpty (pyOrElse v (.list [])) = Except.ok (ε := PyErr) l := by
  by_cases hv : v.truthy = true
  · cases v with
    | list xs => exact ⟨xs, by simp [pyIterOrEmpty, pyOrElse, hv, PyVal.iterate]⟩
    | str s =>
        exact ⟨s.data.map (fun c => .str (String.mk [c])),
          by simp [pyIterOrEmpty, pyOrElse, hv, PyVal.iterate]⟩
    | obj fs =>
        exact ⟨fs.map (fun kv => .str kv.1),
          by simp [pyIterOrEmpty, pyOrElse, hv, PyVal.iterate]⟩
    | null => simp [PyVal.truthy] at hv
    | int n => simp_all [iterOrFalsy, PyVal.truthy]
    | bool b => simp_all [iterOrFalsy, PyVal.truthy]
  · refine ⟨[], ?_⟩
    rw [pyOrElse, if_neg hv]
    rfl

theorem clItemsSafe_ok (v : PyVal) (h : clItemsSafe v = true) :
    ∃ l, (pyIterOrEmpty (pyOrElse v (.list [])) = Except.ok (ε := PyErr) l) ∧
      l.all isObjPred = true := by
  by_cases hv : v.truthy = true
  · cases v with
    | list xs =>
        exact ⟨xs, by simp [pyIterOrEmpty, pyOrElse, hv, PyVal.iterate],
          by simpa [clItemsSafe, hv] using h⟩
    | null => simp [PyVal.truthy] at hv
    | str s => simp_all [clItemsSafe, PyVal.truthy]
    | int n => simp_all [clItemsSafe, PyVal.truthy]
    | bool b => simp_all [clItemsSafe, PyVal.truthy]
    | obj fs => simp_all [clItemsSafe, PyVal.truthy]
  · refine ⟨[], ?_, by simp⟩
    rw [pyOrElse, if_neg hv]
    rfl

theorem pyGetOr2_obj (fs : List (String × PyVal)) (k1 k2 : String) :
    pyGetOr2 (.obj fs) k1 k2 =
      .ok (pyOrElse ((PyVal.lookupKey fs k1).getD .null)
        ((PyVal.lookupKey fs k2).getD .null)) := by
  simp [pyGetOr2, pyGetD, PyVal.getRaw, Except.map, bind_def, except_bind_ok_eq,
    pure, Except.pure, pyOrElse, ite_ok]

theorem mapM_error_mem {α : Type} (f : PyVal → Except PyErr α) (xs : List PyVal)
    (e : PyErr) (h : xs.mapM f = .error e) :
    ∃ x, x ∈ xs ∧ ∃ e2, f x = .error e2 := by
  induction xs generalizing e with
  | nil => simp [List.mapM, List.mapM.loop, pure, Except.pure] at h
  | cons a rest ih =>
      rw [List.mapM_cons] at h
      cases hfa : f a with
      | error e2 => exact ⟨a, List.mem_cons_self a rest, e2, hfa⟩
      | ok y =>
          rw [hfa, bind_def, except_bind_ok_eq] at h
          cases hrest : rest.mapM f with
          | error e3 =>
              obtain ⟨x, hx, he2⟩ := ih e3 hrest
              exact ⟨x, List.mem_cons_of_mem _ hx, he2⟩
          | ok l =>
              rw [hrest, bind_def, except_bind_ok_eq] at h
              simp [pure, Except.pure] at h

theorem isOk_bind {α β : Type} (x : Except PyErr α) (g : α → Except PyErr β)
    (hx : ∀ e, ¬ x = .error e) (hg : ∀ a, (g a).isOk = true) :
    (Except.bind x g).isOk = true := by
  cases x with
  | error e => exact absurd rfl (hx e)
  | ok a => simpa [except_bind_ok_eq] using hg a

set_option maxHeartbeats 3200000 in
/-- C8 (amended): `render_final` substitutes placeholders for missing or
`None` sections and returns normally for every draft satisfying the shape
condition `renderSafe` (each dereferenced section absent, `None`, or of the
expected type); it is NOT total — a malformed section of the wrong type
(e.g. a bare string as `frontend_current`) raises an AttributeError, see
the counterexample. -/
theorem C8_render_never_raises (draft : PyVal) (h : renderSafe draft = true) :
    (render_final draft).isOk = true := by
  cases draft with
  | null => simp [renderSafe] at h
  | str s => simp [renderSafe] at h
  | int n => simp [renderSafe] at h
  | bool b => simp [renderSafe] at h
  | list xs => simp [renderSafe] at h
  | obj dfs =>
    simp only [renderSafe, Bool.and_eq_true] at h
    obtain ⟨⟨⟨⟨⟨⟨⟨⟨⟨⟨h1, h2⟩, h3⟩, h4⟩, h5⟩, h6⟩, h7⟩, h8⟩, h9⟩, h10⟩, h11⟩ := h
    obtain ⟨bfs, hbfs⟩ := objOrFalsy_elim _ h1
    obtain ⟨scfs, hscfs⟩ := objOrFalsy_elim _ h2
    obtain ⟨chfs, hchfs⟩ := objOrFalsy_elim _ h3
    rw [safeGet_eq _ _ _ hbfs] at h4 h5
    obtain ⟨clfs, hclfs⟩ := objOrFalsy_elim _ h4
    rw [safeGet_eq _ _ _ hclfs] at h5
    rw [safeGet_eq _ _ _ hscfs] at h6 h7 h8
    rw [safeGet_eq _ _ _ hchfs] at h9 h10 h11
    obtain ⟨fefs, hfefs⟩ := objOrFalsy_elim _ h6
    obtain ⟨fchfs, hfchfs⟩ := objOrFalsy_elim _ h9
    obtain ⟨imgL, himgL⟩ := iterOrEmpty_ok _ h8
    obtain ⟨riskL, hriskL⟩ := iterOrEmpty_ok _ h11
    obtain ⟨clL, hclL, hclAll⟩ := clItemsSafe_ok _ h5
    rcases strObjOrNull_elim _ h7 with ⟨s1, hn1⟩ | ⟨f1, hn1⟩ | hn1 <;>
      rcases strObjOrNull_elim _ h10 with ⟨s2, hn2⟩ | ⟨f2, hn2⟩ | hn2 <;>
      · simp only [render_final, bind_def, except_bind_ok_eq, pure, Except.pure,
          pyGetD, PyVal.getRaw, Except.map, hbfs, hscfs, hchfs, hclfs, hfefs,
          hfchfs, hn1, hn2, getAttr_obj, getAttr_null, ite_ok, pyGetOr2_obj,
          himgL, hriskL, hclL]
        apply isOk_bind
        · intro e he
          obtain ⟨x, hxmem, e2, hfx⟩ := mapM_error_mem _ _ _ he
          have hobj : isObjPred x = true := List.all_eq_true.mp hclAll x hxmem
          cases x with
          | null => simp [isObjPred] at hobj
          | str s => simp [isObjPred] at hobj
          | int n => simp [isObjPred] at hobj
          | bool b => simp [isObjPred] at hobj
          | list l => simp [isObjPred] at hobj
          | obj ofs =>
              simp [pyGetD, PyVal.getRaw, Except.map, bind_def,
                except_bind_ok_eq, pure, Except.pure] at hfx
        · exact fun a => rfl

/-- C8 counterexample: a malformed `system_current.frontend_current` section
(a bare string where the renderer expects a dict) makes `render_final` raise
an AttributeError instead of substituting a placeholder, so the renderer is
not total on malformed drafts. -/
theorem C8_render_never_raises_counterexample :
    render_final (.obj [("system_current",
      .obj [("frontend_current", .str "前端现状文本")])]) =
      .error "AttributeError: object has no attribute get" := by
  rfl

/-- Witness for C8 on a concrete well-shaped draft exercising the string
notification, clarification items, image urls and risks paths. -/
theorem C8_render_never_raises_witness :
    renderSafe (.obj [("business_requirement",
        .obj [("demand_source", .str "需求来源"),
              ("clarification_log", .obj [("items", .list [.obj
                [("question", .str "问题"), ("answer", .str "答案"),
                 ("source", .str "defend")]])])]),
      ("system_current",
        .obj [("notification_current", .str "通知现状"),
              ("image_urls", .list [.str "/static/kb_images/a.png"])]),
      ("system_changes",
        .obj [("change_overview", .str "改动总览"),
              ("risks", .list [.str "风险一"])])]) = true ∧
    (render_final (.obj [("business_requirement",
        .obj [("demand_source", .str "需求来源"),
              ("clarification_log", .obj [("items", .list [.obj
                [("question", .str "问题"), ("answer", .str "答案"),
                 ("source", .str "defend")]])])]),
      ("system_current",
        .obj [("notification_current", .str "通知现状"),
              ("image_urls", .list [.str "/static/kb_images/a.png"])]),
      ("system_changes",
        .obj [("change_overview", .str "改动总览"),
              ("risks", .list [.str "风险一"])])])).isOk = true :=
  ⟨by rfl, C8_render_never_raises _ (by rfl)⟩

/-! ### C1 — confirmed feedback on a complete draft finalizes the session -/

theorem convStatus_add_message (db : Db) (cid r p c q : String) :
    Db.convStatus (add_message db cid r p c) q = Db.convStatus db q := rfl

theorem find_map_setStatus (l : List (String × String × String)) (cid status : String) :
    ((l.map fun c => if c.1 = cid then (c.1, c.2.1, status) else c).find?
        fun c => c.1 = cid) =
      ((l.find? fun c => c.1 = cid).map fun c => (c.1, c.2.1, status)) := by
  induction l with
  | nil => rfl
  | cons c rest ih =>
      by_cases hc : c.1 = cid
      · simp [List.find?, hc]
      · simp [List.find?, hc, ih]

theorem convStatus_update (db : Db) (cid status : String) :
    Db.convStatus (update_conversation_status db cid status) cid =
      (Db.convStatus db cid).map fun _ => status := by
  simp only [Db.convStatus, update_conversation_status, find_map_setStatus]
  cases db.conversations.find? fun c => c.1 = cid <;> simp

/-- C1: for a session in `DRAFT_READY` or `CONFIRMING` whose draft the
Completeness Checker finds complete, confirming feedback makes the pipeline
emit a single terminal event of payload-type `FINAL_DOC` carrying the
rendered document, mark the conversation `done`, and set the session state
to `DONE`.  (`persist_session` is missing from the provided sources and is
modelled from the spec as the session-store put.) -/
theorem C1_confirm_finalize (env : PipelineEnv) (st : PipeState)
    (sid text doc : String) (imgs : List String)
    (sess : OrchestratorSession) (pr : ConfirmerParseResult)
    (result : DefenderResult)
    (hfind : sessionsFind st.sessions sid = some sess)
    (hstate : sess.state = "DRAFT_READY" ∨ sess.state = "CONFIRMING")
    (hparse : parse_feedback env.llm_confirmer_parse sess.draft_struct text = .ok pr)
    (hconf : pr.status = .str "confirmed")
    (hcheck : check_draft sess.draft_struct = .ok result)
    (hcomplete : result.is_complete = true)
    (hrender : render_final sess.draft_struct = .ok doc)
    (hconv : ∃ s0, Db.convStatus st.db sess.session_id = some s0) :
    (process env st text (some sid) imgs).1.filter Event.isTerminal =
      [Event.final (some sess.session_id) Intent.ORCH_FLOW.value "FINAL_DOC"
        (.obj [("markdown", .str doc)])] ∧
    sessionsFind (process env st text (some sid) imgs).2.sessions sess.session_id =
      some { sess with state := "DONE" } ∧
    Db.convStatus (process env st text (some sid) imgs).2.db sess.session_id =
      some "done" := by
  obtain ⟨s0, hs0⟩ := hconv
  rcases hstate with hs | hs <;>
    refine ⟨?_, ?_, ?_⟩ <;>
    simp [process, hfind, hs, handle_confirm, hparse, hconf, PyVal.eqStr,
      defend_and_maybe_finalize, hcheck, hcomplete, hrender, persist_session,
      sessionsFind_put, save_trace, convStatus_add_message, convStatus_update,
      hs0, Event.isTerminal, List.filter]

/-- Environment for exercising C1: the confirmer LLM is unavailable, so the
keyword fallback classifies the feedback. -/
def c1Env : PipelineEnv :=
  { kb_query_llm_enabled := false, llm_configured := false,
    kb_query_max_subqueries := 4, kb_query_max_merged_chars := 12000,
    retrieve := fun _ _ => .error "KB 不可用",
    llm_expand_kb_queries := fun _ => none,
    llm_kb_synthesize := fun _ _ => none,
    llm_confirmer_parse := fun _ _ => none,
    fresh_conv_id := "conv-c1", fresh_session_id := "sess-c1",
    collect := fun s => .ok s,
    answer_questions := fun s t => .ok (s, t) }

/-- A `DRAFT_READY` session holding a complete draft. -/
def c1Sess : OrchestratorSession :=
  { session_id := "S1", user_request := "需求描述", state := "DRAFT_READY",
    open_questions := [], user_answers := [], knowledge_markdown := "",
    kb_image_urls := [], draft_struct := sampleCompleteDraft "无" "改动总览简述",
    last_defend_questions := [], requirement_structured := .obj [] }

def c1St : PipeState :=
  { sessions := [("S1", c1Sess)],
    db := { conversations := [("S1", "ORCH_FLOW", "active")], messages := [] } }

/-- Witness for C1: the "确认" feedback on the stored complete draft yields
the FINAL_DOC terminal event, a DONE session and a done conversation. -/
theorem C1_confirm_finalize_witness :
    (process c1Env c1St "确认" (some "S1") []).1.filter Event.isTerminal =
      [Event.final (some "S1") Intent.ORCH_FLOW.value "FINAL_DOC"
        (.obj [("markdown", .str
          ((render_final (sampleCompleteDraft "无" "改动总览简述")).toOption.getD ""))])] ∧
    sessionsFind (process c1Env c1St "确认" (some "S1") []).2.sessions "S1" =
      some { c1Sess with state := "DONE" } ∧
    Db.convStatus (process c1Env c1St "确认" (some "S1") []).2.db "S1" =
      some "done" :=
  C1_confirm_finalize c1Env c1St "S1" "确认"
    ((render_final (sampleCompleteDraft "无" "改动总览简述")).toOption.getD "")
    [] c1Sess
    { status := .str "confirmed", user_message := "确认",
      suggested_draft_updates := .null, clarification_question := .null,
      redo_scope := .null }
    { is_complete := true, questions := [CATCH_ALL_QUESTION], missing_fields := [] }
    (by rfl) (Or.inl (by rfl)) (by rfl) (by rfl) (by rfl) (by rfl) (by rfl)
    ⟨"active", by rfl⟩


/-! ### C4 — retrieval failure handling: the success path aborts -/

theorem enhanced_success_aborts (env : PipelineEnv) (uq : String)
    (imgs : List String) (hq : normalize_query uq ≠ "")
    (x : String × List String)
    (hs : env.retrieve (normalize_query uq) (kbCallImages imgs 0) = .ok x) :
    enhanced_kb_query env uq imgs = .error TYPEERROR_AWAIT_TUPLE := by
  unfold enhanced_kb_query
  rw [if_neg hq]
  simp [subQueriesOf, List.enum, List.enumFrom, List.foldlM, kbRetrieveStep,
    hs, bind_def, except_bind_error_eq]

theorem enhanced_single_failure (env : PipelineEnv) (uq : String)
    (imgs : List String) (hq : normalize_query uq ≠ "") (e : PyErr)
    (he : env.retrieve (normalize_query uq) (kbCallImages imgs 0) = .error e) :
    enhanced_kb_query env uq imgs = .error KB_ALL_FAILED_ERROR := by
  unfold enhanced_kb_query
  rw [if_neg hq]
  simp [subQueriesOf, List.enum, List.enumFrom, List.foldlM, kbRetrieveStep,
    he, bind_def, except_bind_ok_eq, pure, Except.pure]

theorem enhanced_never_ok (env : PipelineEnv) (uq : String)
    (imgs : List String) (hq : normalize_query uq ≠ "") :
    ∀ r, enhanced_kb_query env uq imgs ≠ .ok r := by
  intro r
  cases hr : env.retrieve (normalize_query uq) (kbCallImages imgs 0) with
  | error e => rw [enhanced_single_failure env uq imgs hq e hr]; simp
  | ok x => rw [enhanced_success_aborts env uq imgs hq x hr]; simp

/-- C4 (code bug): the spec says per-candidate retrieval failures are
recoverable and only an all-candidates failure aborts the operation.  In the
code, `await` is applied to the synchronous `query_kb`, so an uncaught
TypeError is raised exactly when a retrieval SUCCEEDS, aborting the whole
operation; `llm_expand_kb_queries` is likewise awaited while synchronous,
its TypeError is swallowed by the surrounding except, so the candidate set
is always the single normalized query and the multi-candidate recovery the
spec describes never occurs.  The failure half survives: a `KBQueryError`
from the single candidate is caught and the all-failed error is raised; for
non-empty queries the function can never return a result. -/
theorem C4_retrieval_failure_policy_code_bug (env : PipelineEnv) (uq : String)
    (imgs : List String) (hq : normalize_query uq ≠ "") :
    subQueriesOf env (normalize_query uq) = [normalize_query uq] ∧
    (∀ x, env.retrieve (normalize_query uq) (kbCallImages imgs 0) = .ok x →
      enhanced_kb_query env uq imgs = .error TYPEERROR_AWAIT_TUPLE) ∧
    (∀ e, env.retrieve (normalize_query uq) (kbCallImages imgs 0) = .error e →
      enhanced_kb_query env uq imgs = .error KB_ALL_FAILED_ERROR) ∧
    (∀ r, enhanced_kb_query env uq imgs ≠ .ok r) :=
  ⟨rfl, fun x hs => enhanced_success_aborts env uq imgs hq x hs,
   fun e he => enhanced_single_failure env uq imgs hq e he,
   enhanced_never_ok env uq imgs hq⟩

/-- Environment for exercising C4: retrieval succeeds for every query except
the literal "子查询备选", which raises a `KBQueryError`. -/
def c4Env : PipelineEnv :=
  { kb_query_llm_enabled := true, llm_configured := true,
    kb_query_max_subqueries := 4, kb_query_max_merged_chars := 12000,
    retrieve := fun q _ =>
      if q = "子查询备选" then .error "KB 脚本退出码非零"
      else .ok ("检索结果文本", []),
    llm_expand_kb_queries := fun _ => some ["子查询备选"],
    llm_kb_synthesize := fun _ _ => none,
    llm_confirmer_parse := fun _ _ => none,
    fresh_conv_id := "conv-c4", fresh_session_id := "sess-c4",
    collect := fun s => .ok s,
    answer_questions := fun s t => .ok (s, t) }

theorem C4_retrieval_failure_policy_code_bug_witness :
    subQueriesOf c4Env (normalize_query "调仓规则") = ["调仓规则"] ∧
    enhanced_kb_query c4Env "调仓规则" [] = .error TYPEERROR_AWAIT_TUPLE ∧
    enhanced_kb_query c4Env "子查询备选" [] = .error KB_ALL_FAILED_ERROR ∧
    ¬ ∃ r, enhanced_kb_query c4Env "调仓规则" [] = .ok r := by
  have h1 := C4_retrieval_failure_policy_code_bug c4Env "调仓规则" [] (by decide)
  have h2 := C4_retrieval_failure_policy_code_bug c4Env "子查询备选" [] (by decide)
  exact ⟨h1.1, h1.2.1 ("检索结果文本", []) (by rfl),
    h2.2.2.1 "KB 脚本退出码非零" (by rfl),
    fun he => h1.2.2.2 he.choose he.choose_spec⟩

/-! ### C7 — knowledge-lookup scenario: intent holds, the answer path aborts -/

/-- C7 (code bug): the intent half of the scenario holds — the strong
keyword rule classifies the input as `KB_QUERY` with full confidence (1.0,
scaled to 10) — but under the claim's own assumption that a retrieval
sub-query succeeds, the terminal event is an error event, not `KB_ANSWER`:
the successful call raises the awaited-tuple TypeError inside
`enhanced_kb_query`, the `except KBQueryError` of `_handle_kb_query` does
not catch it, and the top-level handler of `process` surfaces it as a
terminal error with status 500. -/
theorem C7_kb_query_scenario_code_bug (env : PipelineEnv) (st : PipeState)
    (imgs : List String) (x : String × List String)
    (hs : env.retrieve (normalize_query "查询知识库：调仓规则是什么")
      (kbCallImages imgs 0) = .ok x) :
    rule_based_detect "查询知识库：调仓规则是什么" = (some .KB_QUERY, 10) ∧
    detect_intent "查询知识库：调仓规则是什么" = .KB_QUERY ∧
    (process env st "查询知识库：调仓规则是什么" none imgs).1.filter
        Event.isTerminal =
      [Event.error TYPEERROR_AWAIT_TUPLE 500] := by
  have henh : enhanced_kb_query env "查询知识库：调仓规则是什么" imgs =
      .error TYPEERROR_AWAIT_TUPLE :=
    enhanced_success_aborts env "查询知识库：调仓规则是什么" imgs (by decide) x hs
  refine ⟨by rfl, by rfl, ?_⟩
  simp [process, new_conversation,
    show detect_intent "查询知识库：调仓规则是什么" = .KB_QUERY from rfl,
    handle_kb_query, henh, Event.isTerminal, List.filter]

/-- Environment for exercising C7: the single original sub-query's retrieval
call succeeds. -/
def c7Env : PipelineEnv :=
  { kb_query_llm_enabled := false, llm_configured := false,
    kb_query_max_subqueries := 4, kb_query_max_merged_chars := 12000,
    retrieve := fun _ _ => .ok ("调仓规则的知识库说明", []),
    llm_expand_kb_queries := fun _ => none,
    llm_kb_synthesize := fun _ _ => none,
    llm_confirmer_parse := fun _ _ => none,
    fresh_conv_id := "conv-c7", fresh_session_id := "sess-c7",
    collect := fun s => .ok s,
    answer_questions := fun s t => .ok (s, t) }

def c7St : PipeState := { sessions := [], db := { conversations := [], messages := [] } }

theorem C7_kb_query_scenario_code_bug_witness :
    rule_based_detect "查询知识库：调仓规则是什么" = (some .KB_QUERY, 10) ∧
    detect_intent "查询知识库：调仓规则是什么" = .KB_QUERY ∧
    (process c7Env c7St "查询知识库：调仓规则是什么" none []).1.filter
        Event.isTerminal =
      [Event.error TYPEERROR_AWAIT_TUPLE 500] :=
  C7_kb_query_scenario_code_bug c7Env c7St [] ("调仓规则的知识库说明", []) (by rfl)
